import Mathlib

/-!
Verification of the walkolution-odometer persistence core.

Part 1 models the standalone flash storage module (src/flash.c, src/flash.h):
the versioned on-flash record layout, XOR checksums, the write path with
erase-program-verify and one retry, the per-sector read with version dispatch,
defensive erasure of future-version records, and the scan/find operations with
dedup by write_index.

Part 2 models the counter/session engine (src/odometer.c): the in-memory
state, the session-identity (merge-or-new) decision, saving to flash,
marking sessions reported, setting the time reference, and the active-time
state machine.

Machine integers are modelled as Nat.  All arithmetic the modelled paths
perform is XOR (width-preserving), division, comparison, and subtractions
that do not underflow on reachable states; where a uint32 subtraction could
wrap, the theorems carry the corresponding ordering hypotheses.
-/

namespace Flash

/-- FLASH_SECTOR_COUNT from src/flash.h:13. -/
def FLASH_SECTOR_COUNT : Nat := 64

/-- FLASH_MAGIC_NUMBER 0x4F444F53 from src/flash.h:15. -/
def FLASH_MAGIC_NUMBER : Nat := 0x4F444F53

/-- FLASH_STRUCT_VERSION (current version, 2) from src/flash.h:16. -/
def FLASH_STRUCT_VERSION : Nat := 2

/-- Public session data structure `session_data_t` (src/flash.h:20-31). -/
structure SessionData where
  session_id : Nat
  write_index : Nat
  session_rotation_count : Nat
  session_active_time_seconds : Nat
  session_start_time_unix : Nat
  session_end_time_unix : Nat
  lifetime_rotation_count : Nat
  lifetime_time_seconds : Nat
  reported : Nat
deriving DecidableEq, Repr

/-- Version-1 on-flash record `flash_data_v1_t` (src/flash.c:12-25), without the
magic and struct_version header words, which are fixed by the sector's parse
(see `Sector`). -/
structure RecV1 where
  session_id : Nat
  session_rotation_count : Nat
  session_active_time_seconds : Nat
  session_start_time_unix : Nat
  session_end_time_unix : Nat
  lifetime_rotation_count : Nat
  lifetime_time_seconds : Nat
  reported : Nat
  checksum : Nat
deriving DecidableEq, Repr

/-- Version-2 on-flash record `flash_data_t` (src/flash.c:29-43), without the
magic and struct_version header words, which are fixed by the sector's parse. -/
structure RecV2 where
  session_id : Nat
  write_index : Nat
  session_rotation_count : Nat
  session_active_time_seconds : Nat
  session_start_time_unix : Nat
  session_end_time_unix : Nat
  lifetime_rotation_count : Nat
  lifetime_time_seconds : Nat
  reported : Nat
  checksum : Nat
deriving DecidableEq, Repr

/-- One flash sector as `flash_read`'s header dispatch (src/flash.c:217-231)
sees it.  `blank` is any contents whose magic word is not FLASH_MAGIC_NUMBER
(erased sectors included); `v1 r` / `v2 r` are contents with a valid magic
whose struct_version word is 1 / 2; `vother ver` are contents with a valid
magic and any other struct_version word `ver` (the code only ever inspects
such sectors' version, never their body). -/
inductive Sector where
  | blank : Sector
  | v1 : RecV1 → Sector
  | v2 : RecV2 → Sector
  | vother : Nat → Sector
deriving DecidableEq, Repr

/-- The flash store: the ring of 64 sectors (src/flash.h:13). -/
abbrev Store := Fin FLASH_SECTOR_COUNT → Sector

/-- XOR checksum of a version-2 record, `flash_calculate_checksum`
(src/flash.c:46-60): XOR of all fields except the checksum itself.  The
record's magic and struct_version words are FLASH_MAGIC_NUMBER and 2 by
construction of `Sector.v2`. -/
def flash_calculate_checksum (r : RecV2) : Nat :=
  Nat.xor FLASH_MAGIC_NUMBER
    (Nat.xor FLASH_STRUCT_VERSION
      (Nat.xor r.session_id
        (Nat.xor r.write_index
          (Nat.xor r.session_rotation_count
            (Nat.xor r.session_active_time_seconds
              (Nat.xor r.session_start_time_unix
                (Nat.xor r.session_end_time_unix
                  (Nat.xor r.lifetime_rotation_count
                    (Nat.xor r.lifetime_time_seconds r.reported)))))))))

/-- Version-1 checksum as recomputed by `flash_read` (src/flash.c:248-257):
XOR of the version-1 fields (no write_index), with magic = FLASH_MAGIC_NUMBER
and struct_version = 1 fixed by the sector's parse. -/
def checksum_v1 (r : RecV1) : Nat :=
  Nat.xor FLASH_MAGIC_NUMBER
    (Nat.xor 1
      (Nat.xor r.session_id
        (Nat.xor r.session_rotation_count
          (Nat.xor r.session_active_time_seconds
            (Nat.xor r.session_start_time_unix
              (Nat.xor r.session_end_time_unix
                (Nat.xor r.lifetime_rotation_count
                  (Nat.xor r.lifetime_time_seconds r.reported))))))))

/-- Building the internal version-2 record from session data, as `flash_write`
does before programming (src/flash.c:83-95): copy the fields, then store the
computed checksum. -/
def encodeRecord (d : SessionData) : RecV2 :=
  let r0 : RecV2 :=
    { session_id := d.session_id
      write_index := d.write_index
      session_rotation_count := d.session_rotation_count
      session_active_time_seconds := d.session_active_time_seconds
      session_start_time_unix := d.session_start_time_unix
      session_end_time_unix := d.session_end_time_unix
      lifetime_rotation_count := d.lifetime_rotation_count
      lifetime_time_seconds := d.lifetime_time_seconds
      reported := d.reported
      checksum := 0 }
  { r0 with checksum := flash_calculate_checksum r0 }

/-- The target sector of a write, `data->write_index % FLASH_SECTOR_COUNT`
(src/flash.c:75). -/
def sectorOf (write_index : Nat) : Fin FLASH_SECTOR_COUNT :=
  ⟨write_index % FLASH_SECTOR_COUNT, Nat.mod_lt _ (by decide)⟩

/-- Post-program verification of one write attempt (src/flash.c:130-191).  The
code reads the just-programmed sector back and compares magic, stored checksum,
recomputed checksum, and every field including struct_version against the
expected record; at byte level this succeeds exactly when the sector holds
precisely the expected version-2 record (any other parse fails the magic,
checksum, or struct_version/field comparison). -/
def verifyWrite (expected : RecV2) (landed : Sector) : Bool :=
  match landed with
  | Sector.v2 r => r = expected
  | _ => false

/-- flash_write (src/flash.c:62-210).  The physical program operation can land
arbitrary contents in the sector, so the model takes, for each of the two
possible erase-program-verify attempts, the sector contents the hardware
actually leaves behind (`landed`); fault-free hardware is
`landed i = Sector.v2 (encodeRecord d)`.  Returns the boolean result, the
resulting store, and the number of erase-program-verify cycles performed.
Zero-rotation data is skipped before any flash operation and reported as
success (src/flash.c:67-72). -/
def flash_write (landed : Fin 2 → Sector) (store : Store) (d : SessionData) :
    Bool × Store × Nat :=
  if d.session_rotation_count = 0 then (true, store, 0)
  else
    let expected := encodeRecord d
    let sector := sectorOf d.write_index
    if verifyWrite expected (landed 0) then
      (true, Function.update store sector (landed 0), 1)
    else if verifyWrite expected (landed 1) then
      (true, Function.update store sector (landed 1), 2)
    else
      (false, Function.update store sector (landed 1), 2)

/-- flash_read of one sector (src/flash.c:212-314).  Returns the decoded
session data (`none` = the caller is told the sector is invalid) together with
the sector's contents afterwards: a record whose struct_version exceeds
FLASH_STRUCT_VERSION is erased defensively (src/flash.c:227-240); every other
path leaves the sector untouched.  Version 1 records are migrated on the fly,
substituting session_id for the missing write_index (src/flash.c:265). -/
def flash_read (s : Sector) : Option SessionData × Sector :=
  match s with
  | Sector.blank => (none, s)
  | Sector.vother ver =>
      if FLASH_STRUCT_VERSION < ver then (none, Sector.blank) else (none, s)
  | Sector.v1 r =>
      if r.checksum = checksum_v1 r then
        if r.session_rotation_count = 0 then (none, s)
        else
          (some
            { session_id := r.session_id
              write_index := r.session_id
              session_rotation_count := r.session_rotation_count
              session_active_time_seconds := r.session_active_time_seconds
              session_start_time_unix := r.session_start_time_unix
              session_end_time_unix := r.session_end_time_unix
              lifetime_rotation_count := r.lifetime_rotation_count
              lifetime_time_seconds := r.lifetime_time_seconds
              reported := r.reported }, s)
      else (none, s)
  | Sector.v2 r =>
      if r.checksum = flash_calculate_checksum r then
        if r.session_rotation_count = 0 then (none, s)
        else
          (some
            { session_id := r.session_id
              write_index := r.write_index
              session_rotation_count := r.session_rotation_count
              session_active_time_seconds := r.session_active_time_seconds
              session_start_time_unix := r.session_start_time_unix
              session_end_time_unix := r.session_end_time_unix
              lifetime_rotation_count := r.lifetime_rotation_count
              lifetime_time_seconds := r.lifetime_time_seconds
              reported := r.reported }, s)
      else (none, s)

/-- The decoded fields of one sector (the boolean/output half of flash_read). -/
def readFields (s : Sector) : Option SessionData :=
  (flash_read s).1

/-- The valid records of the store in sector order: flash_scan_all_sessions
and flash_find_session read each of the 64 sectors exactly once through
flash_read (src/flash.c:321-326, 362-366); this list is the sequence of
successful reads they observe.  (The defensive erasure flash_read performs on
future-version sectors only affects the sector just read, so it never changes
a later read of a different sector.) -/
def sectorData (store : Store) : List SessionData :=
  (List.finRange FLASH_SECTOR_COUNT).filterMap (fun sec => readFields (store sec))

/-- The inner dedup loop of flash_scan_all_sessions (src/flash.c:329-342):
look for an existing entry with the same session_id; if found, keep the one
with the larger write_index (ties keep the existing entry) and report success
(`some` = found_existing). -/
def dedupInsert (d : SessionData) : List SessionData → Option (List SessionData)
  | [] => none
  | e :: rest =>
      if e.session_id = d.session_id then
        some ((if d.write_index > e.write_index then d else e) :: rest)
      else
        match dedupInsert d rest with
        | some rest' => some (e :: rest')
        | none => none

/-- One iteration of flash_scan_all_sessions' outer loop for a valid record
(src/flash.c:326-349): dedup against the list, else append when there is
space. -/
def scanStep (max_sessions : Nat) (acc : List SessionData) (d : SessionData) :
    List SessionData :=
  match dedupInsert d acc with
  | some acc' => acc'
  | none => if acc.length < max_sessions then acc ++ [d] else acc

/-- flash_scan_all_sessions (src/flash.c:316-354): one linear pass over all 64
sectors, deduplicating valid records by session_id and keeping, for each id,
the record with the larger write_index; bounded by max_sessions. -/
def flash_scan_all_sessions (store : Store) (max_sessions : Nat) :
    List SessionData :=
  (sectorData store).foldl (scanStep max_sessions) []

/-- One iteration of flash_find_session's loop (src/flash.c:362-376): a
matching valid record replaces the current best when its write_index is
strictly greater (or when there is no best yet). -/
def findStep (session_id : Nat) (best : Option SessionData) (d : SessionData) :
    Option SessionData :=
  if d.session_id = session_id then
    match best with
    | none => some d
    | some b => if d.write_index > b.write_index then some d else some b
  else best

/-- flash_find_session (src/flash.c:356-379): one pass over all 64 sectors
keeping the matching record with the highest write_index (a strictly greater
write_index replaces the current best). -/
def flash_find_session (store : Store) (session_id : Nat) : Option SessionData :=
  (sectorData store).foldl (findStep session_id) none

end Flash

namespace Odometer

/-- ACTIVE_TIMEOUT_MS from src/odometer.c:15. -/
def ACTIVE_TIMEOUT_MS : Nat := 3000

/-- FLASH_SECTOR_COUNT from src/odometer.c:21. -/
def FLASH_SECTOR_COUNT : Nat := 64

/-- The counter state `odometer_counts_t` (src/odometer.c:42-53). -/
structure Counts where
  lifetime_rotations : Nat
  lifetime_active_seconds : Nat
  session_rotations : Nat
  session_active_seconds : Nat
  boot_rotations : Nat
  boot_active_seconds : Nat
  last_rotation_time_ms : Nat
  active_start_time_ms : Nat
  is_active : Bool
deriving DecidableEq, Repr

/-- The session state `session_state_t` (src/odometer.c:55-63). -/
structure SessionSt where
  current_session_id : Nat
  session_start_time_unix : Nat
  time_reference_unix : Nat
  time_reference_boot_ms : Nat
  time_acquired : Bool
  session_id_decided : Bool
deriving DecidableEq, Repr

/-- The boot-time snapshot of the most recent session,
`previous_session_t` (src/odometer.c:65-74). -/
structure PrevSession where
  session_id : Nat
  rotation_count : Nat
  active_time_seconds : Nat
  start_time_unix : Nat
  end_time_unix : Nat
  reported : Bool
  valid : Bool
deriving DecidableEq, Repr

/-- The save throttling state `save_state_t` (src/odometer.c:87-93), the part
the modelled operations touch. -/
structure SaveState where
  last_saved_count : Nat
  last_save_time_ms : Nat
deriving DecidableEq, Repr

/-- A record of odometer.c's own flash layout `flash_data_t`
(src/odometer.c:26-39).  Magic and checksum are abstracted into validity: a
sector holds `some r` exactly when its magic is FLASH_MAGIC_NUMBER and its
stored checksum recomputes (the predicate every flash loop of odometer.c
applies), and `none` otherwise; `reported` is the uint8 flag read as
`!= 0`. -/
structure ORec where
  session_id : Nat
  session_rotation_count : Nat
  session_active_time_seconds : Nat
  session_start_time_unix : Nat
  session_end_time_unix : Nat
  lifetime_rotation_count : Nat
  lifetime_time_seconds : Nat
  reported : Bool
deriving DecidableEq, Repr

/-- The 64-sector flash ring as odometer.c uses it (src/odometer.c:20-23). -/
abbrev OStore := Fin FLASH_SECTOR_COUNT → Option ORec

/-- The engine's global state (the static instances of src/odometer.c:96-101,
restricted to the fields the persistence/session logic reads or writes)
together with the flash contents. -/
structure EngineState where
  counts : Counts
  session : SessionSt
  prev : PrevSession
  save_state : SaveState
  flash : OStore

/-- The sector a session id is saved to, `target_session_id %
FLASH_SECTOR_COUNT` (src/odometer.c:394). -/
def sectorOfId (session_id : Nat) : Fin FLASH_SECTOR_COUNT :=
  ⟨session_id % FLASH_SECTOR_COUNT, Nat.mod_lt _ (by decide)⟩

/-- odometer_get_current_unix_time (src/odometer.c:246-256). -/
def odometer_get_current_unix_time (now_ms : Nat) (s : EngineState) : Nat :=
  if s.session.time_acquired = false ∨ s.session.time_reference_unix = 0 then 0
  else
    s.session.time_reference_unix +
      (now_ms - s.session.time_reference_boot_ms) / 1000

/-- odometer_get_session_active_time_seconds (src/odometer.c:563-576):
the stored session total, plus the elapsed seconds of the open active period
when currently active. -/
def odometer_get_session_active_time_seconds (now_ms : Nat) (c : Counts) : Nat :=
  if c.is_active then
    c.session_active_seconds + (now_ms - c.active_start_time_ms) / 1000
  else c.session_active_seconds

/-- odometer_get_active_time_seconds (src/odometer.c:548-561). -/
def odometer_get_active_time_seconds (now_ms : Nat) (c : Counts) : Nat :=
  if c.is_active then
    c.lifetime_active_seconds + (now_ms - c.active_start_time_ms) / 1000
  else c.lifetime_active_seconds

/-- merge_with_previous_session (src/odometer.c:258-285): add the previous
session's counts to the live session counters and pick the best start time
for the merged session. -/
def merge_with_previous_session (s : EngineState) : EngineState :=
  let counts' :=
    { s.counts with
        session_rotations := s.counts.session_rotations + s.prev.rotation_count
        session_active_seconds :=
          s.counts.session_active_seconds + s.prev.active_time_seconds }
  let start' :=
    if s.prev.start_time_unix ≠ 0 then s.prev.start_time_unix
    else if s.session.session_start_time_unix ≠ 0 then
      if s.session.session_start_time_unix > s.prev.active_time_seconds then
        s.session.session_start_time_unix - s.prev.active_time_seconds
      else s.session.session_start_time_unix
    else s.session.session_start_time_unix
  { s with
      counts := counts'
      session := { s.session with session_start_time_unix := start' } }

/-- The gap computation of the first-save decision (src/odometer.c:348-352):
defaults to 900 when the current start does not exceed the previous end. -/
def sessionGapSeconds (s : EngineState) : Nat :=
  if s.session.session_start_time_unix > s.prev.end_time_unix then
    s.session.session_start_time_unix - s.prev.end_time_unix
  else 900

/-- The target session id of the first-save merge-or-new decision
(src/odometer.c:318-368). -/
def decideTarget (s : EngineState) : Nat :=
  if s.prev.valid = false then 1
  else if s.prev.reported = true then s.prev.session_id + 1
  else if s.session.session_start_time_unix = 0 then s.prev.session_id
  else if s.prev.end_time_unix = 0 then s.prev.session_id
  else if sessionGapSeconds s ≤ 900 then s.prev.session_id
  else s.prev.session_id + 1

/-- Whether the first-save decision merges with the previous session
(the branches of src/odometer.c:318-368 that call
merge_with_previous_session). -/
def decideMerge (s : EngineState) : Bool :=
  if s.prev.valid = false then false
  else if s.prev.reported = true then false
  else if s.session.session_start_time_unix = 0 then true
  else if s.prev.end_time_unix = 0 then true
  else decide (sessionGapSeconds s ≤ 900)

/-- The first-save decision block of odometer_save_count
(src/odometer.c:310-379): when the session id is still undecided, merge or
start new per the precedence, then lock the target id in. -/
def applyDecision (s : EngineState) : EngineState :=
  if s.session.session_id_decided then s
  else
    let sD := if decideMerge s then merge_with_previous_session s else s
    { sD with
        session :=
          { sD.session with
              current_session_id := decideTarget s
              session_id_decided := true } }

/-- The start-time estimation step of odometer_save_count
(src/odometer.c:384-391): if an end time is known but no start time, estimate
the start as end minus session active seconds. -/
def estimateStart (now_ms : Nat) (session_end_time : Nat) (s : EngineState) :
    EngineState :=
  if session_end_time ≠ 0 ∧ s.session.session_start_time_unix = 0 then
    { s with
        session :=
          { s.session with
              session_start_time_unix :=
                session_end_time -
                  odometer_get_session_active_time_seconds now_ms s.counts } }
  else s

/-- The record odometer_save_count writes (src/odometer.c:397-412); new or
updated sessions are always written with reported = 0. -/
def savedRecord (now_ms : Nat) (session_end_time : Nat) (s : EngineState) :
    ORec :=
  { session_id := s.session.current_session_id
    session_rotation_count := s.counts.session_rotations
    session_active_time_seconds :=
      odometer_get_session_active_time_seconds now_ms s.counts
    session_start_time_unix := s.session.session_start_time_unix
    session_end_time_unix := session_end_time
    lifetime_rotation_count := s.counts.lifetime_rotations
    lifetime_time_seconds := odometer_get_active_time_seconds now_ms s.counts
    reported := false }

/-- odometer_save_count (src/odometer.c:305-429): make the merge-or-new
decision if still pending, compute the session end time, estimate a missing
start time, write the record to sector (id mod 64), and update the save
throttling state. -/
def odometer_save_count (now_ms : Nat) (s : EngineState) : EngineState :=
  let session_end_time := odometer_get_current_unix_time now_ms s
  let s2 := estimateStart now_ms session_end_time (applyDecision s)
  { s2 with
      flash :=
        Function.update s2.flash (sectorOfId s2.session.current_session_id)
          (some (savedRecord now_ms session_end_time s2))
      save_state :=
        { last_saved_count := s2.counts.lifetime_rotations
          last_save_time_ms := now_ms } }

/-- The first sector holding a valid record with the given session id, as the
flash loops of odometer_mark_session_reported locate it
(src/odometer.c:721-743 and 798-829: scan sectors 0..63 in order, stop at the
first magic/checksum-valid record with a matching session_id). -/
def firstMatchingSector (flash : OStore) (session_id : Nat) :
    Option (Fin FLASH_SECTOR_COUNT) :=
  (List.finRange FLASH_SECTOR_COUNT).find? fun sec =>
    match flash sec with
    | some r => decide (r.session_id = session_id)
    | none => false

/-- Rewriting the first valid record with the given session id with
reported = 1 (src/odometer.c:726-741, 804-827): copy the record, set the flag,
recompute the checksum, erase and reprogram the sector. -/
def markFirstMatching (flash : OStore) (session_id : Nat) : OStore :=
  match firstMatchingSector flash session_id with
  | some sec =>
      match flash sec with
      | some r => Function.update flash sec (some { r with reported := true })
      | none => flash
  | none => flash

/-- odometer_set_time_reference (src/odometer.c:835-900): record the time
reference, compute the session start as now minus uptime, and, if the session
id is still undecided and the previous session is valid and unreported, merge
immediately when the previous end time is unknown or the gap is at most 900
seconds; otherwise leave the decision pending. -/
def odometer_set_time_reference (unix_timestamp now_ms : Nat)
    (s : EngineState) : EngineState :=
  if unix_timestamp = 0 then s
  else
    let uptime_seconds := now_ms / 1000
    let s1 :=
      { s with
          session :=
            { s.session with
                time_reference_unix := unix_timestamp
                time_reference_boot_ms := now_ms
                time_acquired := true
                session_start_time_unix := unix_timestamp - uptime_seconds } }
    if s1.session.session_id_decided = false ∧ s1.prev.valid = true ∧
        s1.prev.reported = false then
      let should_merge :=
        if s1.prev.end_time_unix = 0 then true
        else if s1.session.session_start_time_unix ≥ s1.prev.end_time_unix then
          decide
            (s1.session.session_start_time_unix - s1.prev.end_time_unix ≤ 900)
        else false
      if should_merge then
        merge_with_previous_session
          { s1 with
              session :=
                { s1.session with
                    current_session_id := s1.prev.session_id
                    session_id_decided := true } }
      else s1
    else s1

/-- odometer_mark_session_reported (src/odometer.c:700-832).  If the id is the
live decided session: compute whether the session was merged, persist the
current state, flip reported on the first matching flash record, start session
id + 1 (rolling the counters back to boot-only data after a merge, zeroing
them otherwise, and updating the session start time when time is known), and
persist the new session immediately.  Otherwise flip reported on the first
matching flash record, reporting whether one was found. -/
def odometer_mark_session_reported (session_id now_ms : Nat)
    (s : EngineState) : EngineState × Bool :=
  if s.session.session_id_decided = true ∧
      session_id = s.session.current_session_id then
    let was_merged :=
      s.counts.session_rotations ≠ s.counts.boot_rotations ∨
        s.counts.session_active_seconds ≠ s.counts.boot_active_seconds
    let s1 := odometer_save_count now_ms s
    let s2 := { s1 with flash := markFirstMatching s1.flash session_id }
    let s3 :=
      { s2 with
          session := { s2.session with current_session_id := session_id + 1 } }
    let s4 :=
      if was_merged then
        { s3 with
            counts :=
              { s3.counts with
                  session_rotations := s3.counts.boot_rotations
                  session_active_seconds := s3.counts.boot_active_seconds }
            session :=
              if s3.session.time_acquired then
                { s3.session with
                    session_start_time_unix :=
                      s3.session.time_reference_unix -
                        (now_ms - s3.session.time_reference_boot_ms) / 1000 }
              else s3.session }
      else
        { s3 with
            counts :=
              { s3.counts with
                  session_rotations := 0
                  session_active_seconds := 0
                  boot_rotations := 0
                  boot_active_seconds := 0 }
            session :=
              if s3.session.time_acquired then
                { s3.session with
                    session_start_time_unix :=
                      odometer_get_current_unix_time now_ms s3 }
              else s3.session }
    (odometer_save_count now_ms s4, true)
  else
    ({ s with flash := markFirstMatching s.flash session_id },
      (firstMatchingSector s.flash session_id).isSome)

/-- The boot-time scan load_count_from_flash performs (src/odometer.c:182-206):
the valid record with the highest session_id, earlier sectors winning ties. -/
def bestBootRecord (flash : OStore) : Option ORec :=
  (List.finRange FLASH_SECTOR_COUNT).foldl
    (fun best sec =>
      match flash sec with
      | some r =>
          match best with
          | none => some r
          | some b => if r.session_id > b.session_id then some r else some b
      | none => best)
    none

/-- The engine state after odometer_init (src/odometer.c:431-453) on the given
flash contents: globals start zeroed, load_count_from_flash
(src/odometer.c:182-243) restores the lifetime totals and the previous-session
snapshot from the most recent valid record, and the session counters start
fresh with the merge-or-new decision pending. -/
def odometer_boot (flash : OStore) : EngineState :=
  let counts0 : Counts :=
    { lifetime_rotations := 0, lifetime_active_seconds := 0
      session_rotations := 0, session_active_seconds := 0
      boot_rotations := 0, boot_active_seconds := 0
      last_rotation_time_ms := 0, active_start_time_ms := 0, is_active := false }
  let session0 : SessionSt :=
    { current_session_id := 0, session_start_time_unix := 0
      time_reference_unix := 0, time_reference_boot_ms := 0
      time_acquired := false, session_id_decided := false }
  match bestBootRecord flash with
  | some r =>
      { counts :=
          { counts0 with
              lifetime_rotations := r.lifetime_rotation_count
              lifetime_active_seconds := r.lifetime_time_seconds }
        session := session0
        prev :=
          { session_id := r.session_id
            rotation_count := r.session_rotation_count
            active_time_seconds := r.session_active_time_seconds
            start_time_unix := r.session_start_time_unix
            end_time_unix := r.session_end_time_unix
            reported := r.reported
            valid := true }
        save_state := { last_saved_count := 0, last_save_time_ms := 0 }
        flash := flash }
  | none =>
      { counts := counts0
        session := session0
        prev :=
          { session_id := 0, rotation_count := 0, active_time_seconds := 0
            start_time_unix := 0, end_time_unix := 0
            reported := false, valid := false }
        save_state := { last_saved_count := 0, last_save_time_ms := 0 }
        flash := flash }

/-- The engine operations the reported-flag claims quantify over: saves,
mark-reported calls and time-reference updates (scans,
odometer_get_unreported_sessions included, do not modify engine or flash
state in odometer.c). -/
inductive Op where
  | save : Nat → Op
  | markReported : Nat → Nat → Op
  | setTime : Nat → Nat → Op
deriving DecidableEq, Repr

/-- One engine operation. -/
def stepOp (s : EngineState) : Op → EngineState
  | Op.save now_ms => odometer_save_count now_ms s
  | Op.markReported session_id now_ms =>
      (odometer_mark_session_reported session_id now_ms s).1
  | Op.setTime ts now_ms => odometer_set_time_reference ts now_ms s

/-- A sequence of engine operations. -/
def runOps (s : EngineState) (ops : List Op) : EngineState :=
  ops.foldl stepOp s

/-- The rotation branch of odometer_process (src/odometer.c:509-522), also the
body of odometer_add_rotation (src/odometer.c:589-605): bump the counters,
refresh the last-rotation time, and open an active period if none is open. -/
def rotationEvent (now_ms : Nat) (c : Counts) : Counts :=
  let c1 :=
    { c with
        lifetime_rotations := c.lifetime_rotations + 1
        session_rotations := c.session_rotations + 1
        boot_rotations := c.boot_rotations + 1
        last_rotation_time_ms := now_ms }
  if c1.is_active then c1
  else { c1 with active_start_time_ms := now_ms, is_active := true }

/-- The active-timeout block at the top of odometer_process
(src/odometer.c:466-479): once ACTIVE_TIMEOUT_MS have passed since the last
rotation, fold (last_rotation_time_ms - active_start_time_ms) / 1000 seconds
into the lifetime, session and boot totals and go idle. -/
def activeTimeoutTick (now_ms : Nat) (c : Counts) : Counts :=
  if c.is_active = true ∧ ACTIVE_TIMEOUT_MS ≤ now_ms - c.last_rotation_time_ms
  then
    let elapsed := (c.last_rotation_time_ms - c.active_start_time_ms) / 1000
    { c with
        lifetime_active_seconds := c.lifetime_active_seconds + elapsed
        session_active_seconds := c.session_active_seconds + elapsed
        boot_active_seconds := c.boot_active_seconds + elapsed
        is_active := false }
  else c

end Odometer

namespace Flash

lemma verifyWrite_eq_true (expected : RecV2) (landed : Sector) :
    verifyWrite expected landed = true ↔ landed = Sector.v2 expected := by
  cases landed <;> simp [verifyWrite]

lemma checksum_encode (d : SessionData) :
    (encodeRecord d).checksum = flash_calculate_checksum (encodeRecord d) := rfl

lemma readFields_encode (d : SessionData) (h : d.session_rotation_count ≠ 0) :
    readFields (Sector.v2 (encodeRecord d)) = some d := by
  simp only [readFields, flash_read]
  rw [if_pos
      (show (encodeRecord d).checksum = flash_calculate_checksum (encodeRecord d)
        from rfl),
    if_neg (show ¬(encodeRecord d).session_rotation_count = 0 from h)]
  rfl

/-- C7: for any session data with nonzero rotation count, a successful
flash_write followed by flash_read of sector (write_index mod 64) returns
exactly the fields that were written. -/
theorem write_read_roundtrip (landed : Fin 2 → Sector) (store : Store)
    (d : SessionData) (h0 : d.session_rotation_count ≠ 0)
    (h1 : (flash_write landed store d).1 = true) :
    readFields ((flash_write landed store d).2.1 (sectorOf d.write_index)) =
      some d := by
  unfold flash_write at h1 ⊢
  rw [if_neg h0] at h1 ⊢
  by_cases hv0 : verifyWrite (encodeRecord d) (landed 0) = true
  · simp only [hv0, if_true]
    rw [(verifyWrite_eq_true _ _).mp hv0, Function.update_same]
    exact readFields_encode d h0
  · simp only [hv0, Bool.false_eq_true, if_false] at h1 ⊢
    by_cases hv1 : verifyWrite (encodeRecord d) (landed 1) = true
    · simp only [hv1, if_true]
      rw [(verifyWrite_eq_true _ _).mp hv1, Function.update_same]
      exact readFields_encode d h0
    · simp [hv1] at h1

/-- Concrete witness data for the round-trip theorem. -/
def roundtripData : SessionData :=
  { session_id := 1, write_index := 2, session_rotation_count := 3
    session_active_time_seconds := 4, session_start_time_unix := 5
    session_end_time_unix := 6, lifetime_rotation_count := 7
    lifetime_time_seconds := 8, reported := 1 }

theorem write_read_roundtrip_witness :
    roundtripData.session_rotation_count ≠ 0 ∧
    (flash_write (fun _ => Sector.v2 (encodeRecord roundtripData))
        (fun _ => Sector.blank) roundtripData).1 = true ∧
    readFields
        ((flash_write (fun _ => Sector.v2 (encodeRecord roundtripData))
            (fun _ => Sector.blank) roundtripData).2.1
          (sectorOf roundtripData.write_index)) = some roundtripData :=
  ⟨by decide, by decide,
    write_read_roundtrip _ _ _ (by decide) (by decide)⟩

/-- C8: a record with valid magic whose struct_version exceeds the build's
current version (2) is reported invalid to the caller and its sector is
erased defensively, so it is never decoded as a known version. -/
theorem future_version_read (ver : Nat) (h : FLASH_STRUCT_VERSION < ver) :
    flash_read (Sector.vother ver) = (none, Sector.blank) := by
  simp [flash_read, h]

theorem future_version_read_witness :
    FLASH_STRUCT_VERSION < 3 ∧
      flash_read (Sector.vother 3) = (none, Sector.blank) :=
  ⟨by decide, future_version_read 3 (by decide)⟩

/-- A concrete valid version-1 record (its checksum recomputes and its
rotation count is nonzero). -/
def v1ExampleRecord : RecV1 :=
  { session_id := 7, session_rotation_count := 5
    session_active_time_seconds := 11, session_start_time_unix := 0
    session_end_time_unix := 0, lifetime_rotation_count := 5
    lifetime_time_seconds := 11, reported := 0, checksum := 0x4F444F55 }

/-- C9 counterexample: decoding a valid version-1 record succeeds but does not
write the record back in the current version's shape: the sector still holds
the unchanged version-1 record afterwards (flash_read's only flash effect is
the defensive erase of future versions, src/flash.c:243-281 performs no
write). -/
theorem v1_decode_no_writeback_counterexample :
    flash_read (Sector.v1 v1ExampleRecord) =
      (some
        { session_id := 7, write_index := 7, session_rotation_count := 5
          session_active_time_seconds := 11, session_start_time_unix := 0
          session_end_time_unix := 0, lifetime_rotation_count := 5
          lifetime_time_seconds := 11, reported := 0 },
        Sector.v1 v1ExampleRecord) := by decide

/-- C9 amended: decoding a valid version-1 record returns the migrated fields
to the caller, but performs no write-back: the sector keeps the version-1
record unchanged. -/
theorem v1_decode_no_writeback (r : RecV1) (hck : r.checksum = checksum_v1 r)
    (hrot : r.session_rotation_count ≠ 0) :
    flash_read (Sector.v1 r) =
      (some
        { session_id := r.session_id, write_index := r.session_id
          session_rotation_count := r.session_rotation_count
          session_active_time_seconds := r.session_active_time_seconds
          session_start_time_unix := r.session_start_time_unix
          session_end_time_unix := r.session_end_time_unix
          lifetime_rotation_count := r.lifetime_rotation_count
          lifetime_time_seconds := r.lifetime_time_seconds
          reported := r.reported },
        Sector.v1 r) := by
  simp [flash_read, hck, hrot]

theorem v1_decode_no_writeback_witness :
    v1ExampleRecord.checksum = checksum_v1 v1ExampleRecord ∧
    v1ExampleRecord.session_rotation_count ≠ 0 ∧
    flash_read (Sector.v1 v1ExampleRecord) =
      (some
        { session_id := v1ExampleRecord.session_id
          write_index := v1ExampleRecord.session_id
          session_rotation_count := v1ExampleRecord.session_rotation_count
          session_active_time_seconds :=
            v1ExampleRecord.session_active_time_seconds
          session_start_time_unix := v1ExampleRecord.session_start_time_unix
          session_end_time_unix := v1ExampleRecord.session_end_time_unix
          lifetime_rotation_count := v1ExampleRecord.lifetime_rotation_count
          lifetime_time_seconds := v1ExampleRecord.lifetime_time_seconds
          reported := v1ExampleRecord.reported },
        Sector.v1 v1ExampleRecord) :=
  ⟨by decide, by decide, v1_decode_no_writeback _ (by decide) (by decide)⟩

/-- C10: a stored version-1 record that passes magic, version-1 checksum and
nonzero-rotation validation decodes to fields whose write_index equals the
record's session_id (version 1 had no write_index; the migration substitutes
session_id, src/flash.c:265). -/
theorem v1_migration_write_index (r : RecV1) (hck : r.checksum = checksum_v1 r)
    (hrot : r.session_rotation_count ≠ 0) :
    ∃ d : SessionData, (flash_read (Sector.v1 r)).1 = some d ∧
      d.write_index = r.session_id ∧ d.session_id = r.session_id := by
  refine
    ⟨{ session_id := r.session_id, write_index := r.session_id
       session_rotation_count := r.session_rotation_count
       session_active_time_seconds := r.session_active_time_seconds
       session_start_time_unix := r.session_start_time_unix
       session_end_time_unix := r.session_end_time_unix
       lifetime_rotation_count := r.lifetime_rotation_count
       lifetime_time_seconds := r.lifetime_time_seconds
       reported := r.reported }, ?_, rfl, rfl⟩
  simp [flash_read, hck, hrot]

theorem v1_migration_write_index_witness :
    v1ExampleRecord.checksum = checksum_v1 v1ExampleRecord ∧
    v1ExampleRecord.session_rotation_count ≠ 0 ∧
    (∃ d : SessionData, (flash_read (Sector.v1 v1ExampleRecord)).1 = some d ∧
      d.write_index = v1ExampleRecord.session_id ∧
      d.session_id = v1ExampleRecord.session_id) :=
  ⟨by decide, by decide, v1_migration_write_index _ (by decide) (by decide)⟩

/-- The session data a failing write attempted to persist (session_id 1). -/
def writeReqData : SessionData :=
  { session_id := 1, write_index := 0, session_rotation_count := 5
    session_active_time_seconds := 7, session_start_time_unix := 100
    session_end_time_unix := 200, lifetime_rotation_count := 9
    lifetime_time_seconds := 11, reported := 0 }

/-- An internally checksum-consistent version-2 record for a different session
(session_id 2): contents faulty hardware could leave in the sector. -/
def corruptLanded : RecV2 :=
  encodeRecord
    { session_id := 2, write_index := 0, session_rotation_count := 5
      session_active_time_seconds := 7, session_start_time_unix := 100
      session_end_time_unix := 200, lifetime_rotation_count := 9
      lifetime_time_seconds := 11, reported := 0 }

/-- C3 counterexample: when both erase-program-verify attempts land an
internally checksum-consistent record for different field values, flash_write
returns false, yet the subsequent flash_read of that sector does NOT return
invalid: it returns those other, corrupted field values (they pass
magic/checksum validation). -/
theorem write_fail_read_valid_counterexample :
    (flash_write (fun _ => Sector.v2 corruptLanded) (fun _ => Sector.blank)
        writeReqData).1 = false ∧
    readFields
        ((flash_write (fun _ => Sector.v2 corruptLanded)
            (fun _ => Sector.blank) writeReqData).2.1
          (sectorOf writeReqData.write_index)) =
      some
        { session_id := 2, write_index := 0, session_rotation_count := 5
          session_active_time_seconds := 7, session_start_time_unix := 100
          session_end_time_unix := 200, lifetime_rotation_count := 9
          lifetime_time_seconds := 11, reported := 0 } ∧
    ({ session_id := 2, write_index := 0, session_rotation_count := 5
       session_active_time_seconds := 7, session_start_time_unix := 100
       session_end_time_unix := 200, lifetime_rotation_count := 9
       lifetime_time_seconds := 11, reported := 0 } : SessionData) ≠
      writeReqData := by decide

/-- C3 amended: flash_write performs at most two erase-program-verify cycles,
returns true as soon as a verification passes (a passing first attempt ends
the write after one cycle), returns true exactly when one of the two attempts
verifies, and when both verifications fail it returns false after exactly two
cycles, leaving the sector holding whatever the final attempt landed — so the
subsequent read of that sector returns invalid exactly when that residual
content fails magic/checksum/nonzero-rotation validation. -/
theorem write_retry_then_fail (landed : Fin 2 → Sector) (store : Store)
    (d : SessionData) (h0 : d.session_rotation_count ≠ 0) :
    (flash_write landed store d).2.2 ≤ 2 ∧
    (verifyWrite (encodeRecord d) (landed 0) = true →
      flash_write landed store d =
        (true, Function.update store (sectorOf d.write_index) (landed 0), 1)) ∧
    ((flash_write landed store d).1 = true ↔
      (verifyWrite (encodeRecord d) (landed 0) = true ∨
        verifyWrite (encodeRecord d) (landed 1) = true)) ∧
    (verifyWrite (encodeRecord d) (landed 0) = false →
      verifyWrite (encodeRecord d) (landed 1) = false →
      (flash_write landed store d).1 = false ∧
      (flash_write landed store d).2.2 = 2 ∧
      readFields ((flash_write landed store d).2.1 (sectorOf d.write_index)) =
        readFields (landed 1)) := by
  unfold flash_write
  rw [if_neg h0]
  by_cases hv0 : verifyWrite (encodeRecord d) (landed 0) = true
  · simp [hv0, Function.update_same]
  · by_cases hv1 : verifyWrite (encodeRecord d) (landed 1) = true
    · simp [hv0, hv1, Function.update_same]
    · simp [hv0, hv1, Function.update_same]

theorem write_retry_then_fail_witness :
    writeReqData.session_rotation_count ≠ 0 ∧
    ((flash_write (fun _ => Sector.v2 corruptLanded) (fun _ => Sector.blank)
        writeReqData).2.2 ≤ 2 ∧
    (verifyWrite (encodeRecord writeReqData) (Sector.v2 corruptLanded) = true →
      flash_write (fun _ => Sector.v2 corruptLanded) (fun _ => Sector.blank)
          writeReqData =
        (true,
          Function.update (fun _ => Sector.blank)
            (sectorOf writeReqData.write_index) (Sector.v2 corruptLanded), 1)) ∧
    ((flash_write (fun _ => Sector.v2 corruptLanded) (fun _ => Sector.blank)
        writeReqData).1 = true ↔
      (verifyWrite (encodeRecord writeReqData) (Sector.v2 corruptLanded) =
          true ∨
        verifyWrite (encodeRecord writeReqData) (Sector.v2 corruptLanded) =
          true)) ∧
    (verifyWrite (encodeRecord writeReqData) (Sector.v2 corruptLanded) =
        false →
      verifyWrite (encodeRecord writeReqData) (Sector.v2 corruptLanded) =
        false →
      (flash_write (fun _ => Sector.v2 corruptLanded) (fun _ => Sector.blank)
          writeReqData).1 = false ∧
      (flash_write (fun _ => Sector.v2 corruptLanded) (fun _ => Sector.blank)
          writeReqData).2.2 = 2 ∧
      readFields
          ((flash_write (fun _ => Sector.v2 corruptLanded)
              (fun _ => Sector.blank) writeReqData).2.1
            (sectorOf writeReqData.write_index)) =
        readFields (Sector.v2 corruptLanded))) :=
  ⟨by decide, write_retry_then_fail _ _ _ (by decide)⟩

end Flash

namespace Flash

lemma dedupInsert_none_iff (d : SessionData) (acc : List SessionData) :
    dedupInsert d acc = none ↔ ∀ e ∈ acc, e.session_id ≠ d.session_id := by
  induction acc with
  | nil => simp [dedupInsert]
  | cons e rest ih =>
    simp only [dedupInsert]
    by_cases h : e.session_id = d.session_id
    · simp [h]
    · rw [if_neg h]
      cases hrec : dedupInsert d rest with
      | none =>
        simp only [List.mem_cons]
        constructor
        · intro _ e' he'
          rcases he' with he' | he'
          · exact he' ▸ h
          · exact (ih.mp hrec) e' he'
        · intro _
          trivial
      | some rest' =>
        simp only [List.mem_cons]
        constructor
        · intro hcontra
          exact absurd hcontra (by simp)
        · intro hall
          have : dedupInsert d rest = none :=
            ih.mpr fun e' he' => hall e' (Or.inr he')
          rw [this] at hrec
          exact absurd hrec (by simp)

lemma dedupInsert_some_sids (d : SessionData) (acc acc' : List SessionData)
    (h : dedupInsert d acc = some acc') :
    acc'.map SessionData.session_id = acc.map SessionData.session_id := by
  induction acc generalizing acc' with
  | nil => simp [dedupInsert] at h
  | cons e rest ih =>
    simp only [dedupInsert] at h
    by_cases he : e.session_id = d.session_id
    · rw [if_pos he] at h
      obtain rfl := Option.some_injective _ h
      by_cases hw : d.write_index > e.write_index <;> simp [hw, he]
    · rw [if_neg he] at h
      cases hrec : dedupInsert d rest with
      | none => rw [hrec] at h; exact absurd h (by simp)
      | some rest' =>
        rw [hrec] at h
        obtain rfl := Option.some_injective _ h
        simp [ih rest' hrec]

lemma dedupInsert_some_mem (d : SessionData) (acc acc' : List SessionData)
    (h : dedupInsert d acc = some acc') :
    ∀ e ∈ acc', e ∈ acc ∨ e = d := by
  induction acc generalizing acc' with
  | nil => simp [dedupInsert] at h
  | cons e rest ih =>
    simp only [dedupInsert] at h
    by_cases he : e.session_id = d.session_id
    · rw [if_pos he] at h
      obtain rfl := Option.some_injective _ h
      intro x hx
      rcases List.mem_cons.mp hx with hx | hx
      · by_cases hw : d.write_index > e.write_index
        · rw [if_pos hw] at hx; exact Or.inr hx
        · rw [if_neg hw] at hx; exact Or.inl (hx ▸ List.mem_cons_self e rest)
      · exact Or.inl (List.mem_cons_of_mem e hx)
    · rw [if_neg he] at h
      cases hrec : dedupInsert d rest with
      | none => rw [hrec] at h; exact absurd h (by simp)
      | some rest' =>
        rw [hrec] at h
        obtain rfl := Option.some_injective _ h
        intro x hx
        rcases List.mem_cons.mp hx with hx | hx
        · exact Or.inl (hx ▸ List.mem_cons_self e rest)
        · rcases ih rest' hrec x hx with h' | h'
          · exact Or.inl (List.mem_cons_of_mem e h')
          · exact Or.inr h'

lemma dedupInsert_some_dom_new (d : SessionData) (acc acc' : List SessionData)
    (h : dedupInsert d acc = some acc') :
    ∃ e' ∈ acc', e'.session_id = d.session_id ∧ d.write_index ≤ e'.write_index := by
  induction acc generalizing acc' with
  | nil => simp [dedupInsert] at h
  | cons e rest ih =>
    simp only [dedupInsert] at h
    by_cases he : e.session_id = d.session_id
    · rw [if_pos he] at h
      obtain rfl := Option.some_injective _ h
      refine ⟨if d.write_index > e.write_index then d else e,
        List.mem_cons_self _ _, ?_, ?_⟩
      · by_cases hw : d.write_index > e.write_index <;> simp [hw, he]
      · by_cases hw : d.write_index > e.write_index <;> simp [hw] <;> omega
    · rw [if_neg he] at h
      cases hrec : dedupInsert d rest with
      | none => rw [hrec] at h; exact absurd h (by simp)
      | some rest' =>
        rw [hrec] at h
        obtain rfl := Option.some_injective _ h
        obtain ⟨e', he', hsid, hwi⟩ := ih rest' hrec
        exact ⟨e', List.mem_cons_of_mem e he', hsid, hwi⟩

lemma dedupInsert_some_dom_old (d : SessionData) (acc acc' : List SessionData)
    (h : dedupInsert d acc = some acc') :
    ∀ e ∈ acc, ∃ e' ∈ acc',
      e'.session_id = e.session_id ∧ e.write_index ≤ e'.write_index := by
  induction acc generalizing acc' with
  | nil => simp [dedupInsert] at h
  | cons a rest ih =>
    simp only [dedupInsert] at h
    by_cases ha : a.session_id = d.session_id
    · rw [if_pos ha] at h
      obtain rfl := Option.some_injective _ h
      intro e he
      rcases List.mem_cons.mp he with he | he
      · subst he
        refine ⟨if d.write_index > e.write_index then d else e,
          List.mem_cons_self _ _, ?_, ?_⟩
        · by_cases hw : d.write_index > e.write_index <;> simp [hw, ha]
        · by_cases hw : d.write_index > e.write_index <;> simp [hw] <;> omega
      · exact ⟨e, List.mem_cons_of_mem _ he, rfl, le_refl _⟩
    · rw [if_neg ha] at h
      cases hrec : dedupInsert d rest with
      | none => rw [hrec] at h; exact absurd h (by simp)
      | some rest' =>
        rw [hrec] at h
        obtain rfl := Option.some_injective _ h
        intro e he
        rcases List.mem_cons.mp he with he | he
        · exact ⟨a, he ▸ List.mem_cons_self _ _, by rw [he], by rw [he]⟩
        · obtain ⟨e', he', hsid, hwi⟩ := ih rest' hrec e he
          exact ⟨e', List.mem_cons_of_mem _ he', hsid, hwi⟩


lemma scanStep_eq_found (max_sessions : Nat) (acc : List SessionData)
    (d : SessionData) (acc' : List SessionData)
    (h : dedupInsert d acc = some acc') :
    scanStep max_sessions acc d = acc' := by
  unfold scanStep; rw [h]

lemma scanStep_eq_new (max_sessions : Nat) (acc : List SessionData)
    (d : SessionData) (h : dedupInsert d acc = none) :
    scanStep max_sessions acc d =
      if acc.length < max_sessions then acc ++ [d] else acc := by
  unfold scanStep; rw [h]

lemma scanStep_sids_nodup (max_sessions : Nat) (acc : List SessionData)
    (d : SessionData) (h : (acc.map SessionData.session_id).Nodup) :
    ((scanStep max_sessions acc d).map SessionData.session_id).Nodup := by
  cases hrec : dedupInsert d acc with
  | some acc' =>
    rw [scanStep_eq_found max_sessions acc d acc' hrec,
      dedupInsert_some_sids d acc acc' hrec]
    exact h
  | none =>
    rw [scanStep_eq_new max_sessions acc d hrec]
    by_cases hlen : acc.length < max_sessions
    · rw [if_pos hlen, List.map_append]
      have hnot : d.session_id ∉ acc.map SessionData.session_id := by
        intro hmem
        obtain ⟨e, he, hesid⟩ := List.mem_map.mp hmem
        exact (dedupInsert_none_iff d acc).mp hrec e he hesid
      exact List.Nodup.append h (List.nodup_singleton _)
        fun x hx hx' => hnot ((List.mem_singleton.mp hx') ▸ hx)
    · rw [if_neg hlen]; exact h

lemma scanStep_length_le (max_sessions : Nat) (acc : List SessionData)
    (d : SessionData) (h : acc.length ≤ max_sessions) :
    (scanStep max_sessions acc d).length ≤ max_sessions := by
  cases hrec : dedupInsert d acc with
  | some acc' =>
    rw [scanStep_eq_found max_sessions acc d acc' hrec]
    have := congrArg List.length (dedupInsert_some_sids d acc acc' hrec)
    simp only [List.length_map] at this
    omega
  | none =>
    rw [scanStep_eq_new max_sessions acc d hrec]
    by_cases hlen : acc.length < max_sessions
    · rw [if_pos hlen]; simp; omega
    · rw [if_neg hlen]; exact h

lemma scanStep_length_succ (max_sessions : Nat) (acc : List SessionData)
    (d : SessionData) :
    (scanStep max_sessions acc d).length ≤ acc.length + 1 := by
  cases hrec : dedupInsert d acc with
  | some acc' =>
    rw [scanStep_eq_found max_sessions acc d acc' hrec]
    have := congrArg List.length (dedupInsert_some_sids d acc acc' hrec)
    simp only [List.length_map] at this
    omega
  | none =>
    rw [scanStep_eq_new max_sessions acc d hrec]
    by_cases hlen : acc.length < max_sessions
    · rw [if_pos hlen]; simp
    · rw [if_neg hlen]; omega

lemma scanStep_mem (max_sessions : Nat) (acc : List SessionData)
    (d : SessionData) :
    ∀ e ∈ scanStep max_sessions acc d, e ∈ acc ∨ e = d := by
  cases hrec : dedupInsert d acc with
  | some acc' =>
    rw [scanStep_eq_found max_sessions acc d acc' hrec]
    exact dedupInsert_some_mem d acc acc' hrec
  | none =>
    rw [scanStep_eq_new max_sessions acc d hrec]
    by_cases hlen : acc.length < max_sessions
    · rw [if_pos hlen]
      intro e he
      rcases List.mem_append.mp he with he | he
      · exact Or.inl he
      · exact Or.inr (List.mem_singleton.mp he)
    · rw [if_neg hlen]; exact fun e he => Or.inl he

lemma scanStep_dom (max_sessions : Nat) (acc : List SessionData)
    (d : SessionData) :
    ∀ e ∈ acc, ∃ e' ∈ scanStep max_sessions acc d,
      e'.session_id = e.session_id ∧ e.write_index ≤ e'.write_index := by
  cases hrec : dedupInsert d acc with
  | some acc' =>
    rw [scanStep_eq_found max_sessions acc d acc' hrec]
    exact dedupInsert_some_dom_old d acc acc' hrec
  | none =>
    rw [scanStep_eq_new max_sessions acc d hrec]
    by_cases hlen : acc.length < max_sessions
    · rw [if_pos hlen]
      exact fun e he => ⟨e, List.mem_append_left _ he, rfl, le_refl _⟩
    · rw [if_neg hlen]
      exact fun e he => ⟨e, he, rfl, le_refl _⟩

lemma scanStep_dom_new (max_sessions : Nat) (acc : List SessionData)
    (d : SessionData) (hlen : acc.length < max_sessions) :
    ∃ e' ∈ scanStep max_sessions acc d,
      e'.session_id = d.session_id ∧ d.write_index ≤ e'.write_index := by
  cases hrec : dedupInsert d acc with
  | some acc' =>
    rw [scanStep_eq_found max_sessions acc d acc' hrec]
    exact dedupInsert_some_dom_new d acc acc' hrec
  | none =>
    rw [scanStep_eq_new max_sessions acc d hrec, if_pos hlen]
    exact ⟨d, List.mem_append_right _ (List.mem_singleton_self d), rfl,
      le_refl _⟩

lemma scanStep_no_sid (max_sessions : Nat) (acc : List SessionData)
    (d : SessionData) (s : Nat) (hs : ∀ a ∈ acc, a.session_id ≠ s)
    (hfull : max_sessions ≤ acc.length) :
    (∀ a ∈ scanStep max_sessions acc d, a.session_id ≠ s) ∧
      max_sessions ≤ (scanStep max_sessions acc d).length := by
  cases hrec : dedupInsert d acc with
  | some acc' =>
    rw [scanStep_eq_found max_sessions acc d acc' hrec]
    constructor
    · intro a ha
      have : a.session_id ∈ acc'.map SessionData.session_id :=
        List.mem_map_of_mem _ ha
      rw [dedupInsert_some_sids d acc acc' hrec] at this
      obtain ⟨b, hb, hbs⟩ := List.mem_map.mp this
      exact hbs ▸ hs b hb
    · have := congrArg List.length (dedupInsert_some_sids d acc acc' hrec)
      simp only [List.length_map] at this
      omega
  | none =>
    rw [scanStep_eq_new max_sessions acc d hrec, if_neg (by omega)]
    exact ⟨hs, hfull⟩

lemma scanFold_nodup (max_sessions : Nat) (l : List SessionData) :
    ∀ acc : List SessionData, (acc.map SessionData.session_id).Nodup →
      ((l.foldl (scanStep max_sessions) acc).map SessionData.session_id).Nodup := by
  induction l with
  | nil => exact fun acc h => h
  | cons d rest ih =>
    exact fun acc h => ih _ (scanStep_sids_nodup max_sessions acc d h)

lemma scanFold_length (max_sessions : Nat) (l : List SessionData) :
    ∀ acc : List SessionData, acc.length ≤ max_sessions →
      (l.foldl (scanStep max_sessions) acc).length ≤ max_sessions := by
  induction l with
  | nil => exact fun acc h => h
  | cons d rest ih =>
    exact fun acc h => ih _ (scanStep_length_le max_sessions acc d h)

lemma scanFold_mem (max_sessions : Nat) (l : List SessionData) :
    ∀ acc : List SessionData, ∀ e ∈ l.foldl (scanStep max_sessions) acc,
      e ∈ acc ∨ e ∈ l := by
  induction l with
  | nil => exact fun acc e he => Or.inl he
  | cons d rest ih =>
    intro acc e he
    rcases ih (scanStep max_sessions acc d) e he with h | h
    · rcases scanStep_mem max_sessions acc d e h with h' | h'
      · exact Or.inl h'
      · exact Or.inr (h' ▸ List.mem_cons_self d rest)
    · exact Or.inr (List.mem_cons_of_mem d h)

lemma scanFold_dom (max_sessions : Nat) (l : List SessionData) :
    ∀ acc : List SessionData, ∀ e ∈ acc,
      ∃ e' ∈ l.foldl (scanStep max_sessions) acc,
        e'.session_id = e.session_id ∧ e.write_index ≤ e'.write_index := by
  induction l with
  | nil => exact fun acc e he => ⟨e, he, rfl, le_refl _⟩
  | cons d rest ih =>
    intro acc e he
    obtain ⟨e1, he1, hsid1, hwi1⟩ := scanStep_dom max_sessions acc d e he
    obtain ⟨e2, he2, hsid2, hwi2⟩ := ih (scanStep max_sessions acc d) e1 he1
    exact ⟨e2, he2, hsid2.trans hsid1, le_trans hwi1 hwi2⟩

lemma scanFold_no_sid (max_sessions : Nat) (s : Nat) (l : List SessionData) :
    ∀ acc : List SessionData, (∀ a ∈ acc, a.session_id ≠ s) →
      max_sessions ≤ acc.length →
      ∀ a ∈ l.foldl (scanStep max_sessions) acc, a.session_id ≠ s := by
  induction l with
  | nil => exact fun acc hs _ => hs
  | cons d rest ih =>
    intro acc hs hfull
    obtain ⟨hs', hfull'⟩ := scanStep_no_sid max_sessions acc d s hs hfull
    exact ih _ hs' hfull'

lemma scanFold_max (max_sessions : Nat) (s : Nat) (l : List SessionData) :
    ∀ acc : List SessionData, (acc.map SessionData.session_id).Nodup →
      ∀ e ∈ l.foldl (scanStep max_sessions) acc, e.session_id = s →
      (∀ d ∈ l, d.session_id = s → d.write_index ≤ e.write_index) ∧
      (∀ a ∈ acc, a.session_id = s → a.write_index ≤ e.write_index) := by
  induction l with
  | nil =>
    intro acc hnd e he hes
    refine ⟨fun d hd => absurd hd (List.not_mem_nil d), ?_⟩
    intro a ha has
    have : a = e :=
      List.inj_on_of_nodup_map hnd ha he (by rw [has, hes])
    exact this ▸ le_refl _
  | cons d0 rest ih =>
    intro acc hnd e he hes
    have hnd' := scanStep_sids_nodup max_sessions acc d0 hnd
    obtain ⟨ihl, ihacc⟩ := ih (scanStep max_sessions acc d0) hnd' e he hes
    have hacc_bound : ∀ a ∈ acc, a.session_id = s →
        a.write_index ≤ e.write_index := by
      intro a ha has
      obtain ⟨a', ha', hsid, hwi⟩ := scanStep_dom max_sessions acc d0 a ha
      exact le_trans hwi (ihacc a' ha' (hsid.trans has))
    refine ⟨?_, hacc_bound⟩
    intro d' hd' hd's
    rcases List.mem_cons.mp hd' with hd' | hd'
    · subst hd'
      cases hrec : dedupInsert d' acc with
      | some acc' =>
        obtain ⟨e'', he'', hsid'', hwi''⟩ :=
          dedupInsert_some_dom_new d' acc acc' hrec
        have he''step : e'' ∈ scanStep max_sessions acc d' := by
          rw [scanStep_eq_found max_sessions acc d' acc' hrec]; exact he''
        exact le_trans hwi'' (ihacc e'' he''step (hsid''.trans hd's))
      | none =>
        by_cases hlen : acc.length < max_sessions
        · have hd'mem : d' ∈ scanStep max_sessions acc d' := by
            rw [scanStep_eq_new max_sessions acc d' hrec, if_pos hlen]
            exact List.mem_append_right _ (List.mem_singleton_self d')
          exact ihacc d' hd'mem hd's
        · have hstep_eq : scanStep max_sessions acc d' = acc := by
            rw [scanStep_eq_new max_sessions acc d' hrec, if_neg hlen]
          have hnos : ∀ a ∈ acc, a.session_id ≠ s := by
            intro a ha
            have := (dedupInsert_none_iff d' acc).mp hrec a ha
            rw [hd's] at this
            exact this
          have := scanFold_no_sid max_sessions s rest acc hnos (by omega) e
            (hstep_eq ▸ he)
          exact absurd hes this
    · exact ihl d' hd' hd's

lemma scanFold_enters (max_sessions : Nat) (l : List SessionData) :
    ∀ acc : List SessionData, ∀ d ∈ l,
      acc.length + l.length ≤ max_sessions →
      ∃ e ∈ l.foldl (scanStep max_sessions) acc,
        e.session_id = d.session_id := by
  induction l with
  | nil => intro acc d hd; exact absurd hd (List.not_mem_nil d)
  | cons d0 rest ih =>
    intro acc d hd hlen
    simp only [List.length_cons] at hlen
    rcases List.mem_cons.mp hd with hd | hd
    · subst hd
      obtain ⟨e', he', hsid, _⟩ :=
        scanStep_dom_new max_sessions acc d (by omega)
      obtain ⟨e, he, hsid2, _⟩ :=
        scanFold_dom max_sessions rest (scanStep max_sessions acc d) e' he'
      exact ⟨e, he, hsid2.trans hsid⟩
    · exact ih (scanStep max_sessions acc d0) d hd
        (by have := scanStep_length_succ max_sessions acc d0; omega)

lemma findStep_nomatch (sid : Nat) (best : Option SessionData)
    (d : SessionData) (h : ¬d.session_id = sid) :
    findStep sid best d = best := by
  unfold findStep; exact if_neg h

lemma findStep_first (sid : Nat) (d : SessionData) (h : d.session_id = sid) :
    findStep sid none d = some d := by
  unfold findStep; rw [if_pos h]

lemma findStep_better (sid : Nat) (b d : SessionData)
    (h : d.session_id = sid) (hw : d.write_index > b.write_index) :
    findStep sid (some b) d = some d := by
  unfold findStep; rw [if_pos h]; exact if_pos hw

lemma findStep_keep (sid : Nat) (b d : SessionData)
    (h : d.session_id = sid) (hw : ¬d.write_index > b.write_index) :
    findStep sid (some b) d = some b := by
  unfold findStep; rw [if_pos h]; exact if_neg hw

lemma findStep_some (sid : Nat) (best : Option SessionData) (d m : SessionData)
    (h : findStep sid best d = some m) :
    best = some m ∨ (m = d ∧ d.session_id = sid) := by
  by_cases hd : d.session_id = sid
  · cases best with
    | none =>
      rw [findStep_first sid d hd] at h
      exact Or.inr ⟨(Option.some_injective _ h).symm, hd⟩
    | some b =>
      by_cases hw : d.write_index > b.write_index
      · rw [findStep_better sid b d hd hw] at h
        exact Or.inr ⟨(Option.some_injective _ h).symm, hd⟩
      · rw [findStep_keep sid b d hd hw] at h
        exact Or.inl h
  · rw [findStep_nomatch sid best d hd] at h
    exact Or.inl h

lemma findStep_dom_best (sid : Nat) (best : Option SessionData)
    (d b : SessionData) (hb : best = some b) :
    ∃ b', findStep sid best d = some b' ∧ b.write_index ≤ b'.write_index := by
  subst hb
  by_cases hd : d.session_id = sid
  · by_cases hw : d.write_index > b.write_index
    · exact ⟨d, findStep_better sid b d hd hw, le_of_lt hw⟩
    · exact ⟨b, findStep_keep sid b d hd hw, le_refl _⟩
  · exact ⟨b, findStep_nomatch sid (some b) d hd, le_refl _⟩

lemma findStep_dom_new (sid : Nat) (best : Option SessionData)
    (d : SessionData) (hd : d.session_id = sid) :
    ∃ b', findStep sid best d = some b' ∧ d.write_index ≤ b'.write_index := by
  cases best with
  | none => exact ⟨d, findStep_first sid d hd, le_refl _⟩
  | some b =>
    by_cases hw : d.write_index > b.write_index
    · exact ⟨d, findStep_better sid b d hd hw, le_refl _⟩
    · exact ⟨b, findStep_keep sid b d hd hw, by omega⟩

lemma findFold_spec (sid : Nat) (l : List SessionData) :
    ∀ best : Option SessionData,
      (∀ m, l.foldl (findStep sid) best = some m →
        best = some m ∨ (m ∈ l ∧ m.session_id = sid)) ∧
      (∀ b, best = some b →
        ∃ m, l.foldl (findStep sid) best = some m ∧
          b.write_index ≤ m.write_index) ∧
      (∀ d ∈ l, d.session_id = sid →
        ∃ m, l.foldl (findStep sid) best = some m ∧
          d.write_index ≤ m.write_index) := by
  induction l with
  | nil =>
    intro best
    refine ⟨fun m h => Or.inl h, fun b hb => ⟨b, hb, le_refl _⟩,
      fun d hd => absurd hd (List.not_mem_nil d)⟩
  | cons d0 rest ih =>
    intro best
    obtain ⟨ih1, ih2, ih3⟩ := ih (findStep sid best d0)
    refine ⟨?_, ?_, ?_⟩
    · intro m h
      rcases ih1 m h with h' | h'
      · rcases findStep_some sid best d0 m h' with h'' | h''
        · exact Or.inl h''
        · exact Or.inr ⟨h''.1 ▸ List.mem_cons_self d0 rest, h''.1 ▸ h''.2⟩
      · exact Or.inr ⟨List.mem_cons_of_mem d0 h'.1, h'.2⟩
    · intro b hb
      obtain ⟨b', hb', hwb⟩ := findStep_dom_best sid best d0 b hb
      obtain ⟨m, hm, hwm⟩ := ih2 b' hb'
      exact ⟨m, hm, le_trans hwb hwm⟩
    · intro d hd hds
      rcases List.mem_cons.mp hd with hd | hd
      · subst hd
        obtain ⟨b', hb', hwb⟩ := findStep_dom_new sid best d hds
        obtain ⟨m, hm, hwm⟩ := ih2 b' hb'
        exact ⟨m, hm, le_trans hwb hwm⟩
      · exact ih3 d hd hds

lemma sectorData_mem (store : Store) (e : SessionData) :
    e ∈ sectorData store ↔ ∃ sec, readFields (store sec) = some e := by
  simp [sectorData, List.mem_filterMap, List.mem_finRange]

lemma sectorData_length (store : Store) :
    (sectorData store).length ≤ FLASH_SECTOR_COUNT := by
  unfold sectorData
  calc (List.filterMap (fun sec => readFields (store sec))
          (List.finRange FLASH_SECTOR_COUNT)).length
      ≤ (List.finRange FLASH_SECTOR_COUNT).length :=
        List.length_filterMap_le _ _
    _ = FLASH_SECTOR_COUNT := List.length_finRange _

lemma readFields_some_rot (s : Sector) (d : SessionData)
    (h : readFields s = some d) : d.session_rotation_count ≠ 0 := by
  cases s with
  | blank => simp [readFields, flash_read] at h
  | vother ver =>
    simp only [readFields, flash_read] at h
    split_ifs at h
  | v1 r =>
    simp only [readFields, flash_read] at h
    split_ifs at h with h1 h2
    have hd := Option.some_injective _ (show some _ = some d from h)
    subst hd
    exact h2
  | v2 r =>
    simp only [readFields, flash_read] at h
    split_ifs at h with h1 h2
    have hd := Option.some_injective _ (show some _ = some d from h)
    subst hd
    exact h2

/-- C2: on a store holding two or more valid records with the same session_id
and pairwise distinct write_index values, flash_find_session returns exactly
the record with the largest write_index for that id, and any entry
flash_scan_all_sessions reports for that id is that same
largest-write_index record; when max_sessions is at least the sector count
(the documented usage, src/flash.h:51-53), the id is guaranteed to appear in
the scan.  A scan returns at most max_sessions entries with at most one entry
per session_id; it visits each of the 64 sectors once by construction
(a single fold over the sector list). -/
theorem dedup_latest_write (store : Store) (sid : Nat) (d1 d2 : SessionData)
    (hd1 : d1 ∈ sectorData store) (hd2 : d2 ∈ sectorData store)
    (hs1 : d1.session_id = sid) (hs2 : d2.session_id = sid)
    (hne : d1.write_index ≠ d2.write_index)
    (hdistinct : ∀ e1 ∈ sectorData store, ∀ e2 ∈ sectorData store,
      e1.session_id = sid → e2.session_id = sid → e1 ≠ e2 →
      e1.write_index ≠ e2.write_index) :
    (∃ m, flash_find_session store sid = some m ∧ m ∈ sectorData store ∧
      m.session_id = sid ∧
      (∀ e ∈ sectorData store, e.session_id = sid →
        e.write_index ≤ m.write_index) ∧
      (∀ e ∈ sectorData store, e.session_id = sid → e ≠ m →
        e.write_index < m.write_index)) ∧
    (∀ max_sessions : Nat, ∀ e ∈ flash_scan_all_sessions store max_sessions,
      e.session_id = sid →
      e ∈ sectorData store ∧
      ∀ e2 ∈ sectorData store, e2.session_id = sid →
        e2.write_index ≤ e.write_index) ∧
    (∀ max_sessions : Nat, FLASH_SECTOR_COUNT ≤ max_sessions →
      ∃ e ∈ flash_scan_all_sessions store max_sessions,
        e.session_id = sid) ∧
    (∀ max_sessions : Nat,
      (flash_scan_all_sessions store max_sessions).length ≤ max_sessions) ∧
    (∀ max_sessions : Nat,
      ((flash_scan_all_sessions store max_sessions).map
        SessionData.session_id).Nodup) := by
  obtain ⟨spec1, _, spec3⟩ := findFold_spec sid (sectorData store) none
  refine ⟨?_, ?_, ?_, ?_, ?_⟩
  · obtain ⟨m, hm, hwd1⟩ := spec3 d1 hd1 hs1
    have hmem : m ∈ sectorData store ∧ m.session_id = sid := by
      rcases spec1 m hm with h | h
      · exact absurd h (by simp)
      · exact h
    refine ⟨m, hm, hmem.1, hmem.2, ?_, ?_⟩
    · intro e he hes
      obtain ⟨m', hm', hwe⟩ := spec3 e he hes
      rw [hm] at hm'
      exact (Option.some_injective _ hm') ▸ hwe
    · intro e he hes hne'
      have hle : e.write_index ≤ m.write_index := by
        obtain ⟨m', hm', hwe⟩ := spec3 e he hes
        rw [hm] at hm'
        exact (Option.some_injective _ hm') ▸ hwe
      exact lt_of_le_of_ne hle
        (hdistinct e he m hmem.1 hes hmem.2 hne')
  · intro max_sessions e he hes
    have hmem : e ∈ sectorData store := by
      rcases scanFold_mem max_sessions (sectorData store) [] e he with h | h
      · exact absurd h (List.not_mem_nil e)
      · exact h
    refine ⟨hmem, ?_⟩
    intro e2 he2 hes2
    have := scanFold_max max_sessions sid (sectorData store) [] (by simp)
      e he hes
    exact this.1 e2 he2 hes2
  · intro max_sessions hmax
    have hlen : (0 : Nat) + (sectorData store).length ≤ max_sessions := by
      have := sectorData_length store
      omega
    obtain ⟨e, he, hsid⟩ :=
      scanFold_enters max_sessions (sectorData store) [] d1 hd1
        (by simpa using hlen)
    exact ⟨e, he, hsid.trans hs1⟩
  · intro max_sessions
    exact scanFold_length max_sessions (sectorData store) [] (by simp)
  · intro max_sessions
    exact scanFold_nodup max_sessions (sectorData store) [] (by simp)

/-- Two valid records for session 1 with distinct write indexes, in sectors 0
and 1: witness store for the dedup claim. -/
def dedupStore : Store := fun sec =>
  if sec.val = 0 then
    Sector.v2 (encodeRecord
      { session_id := 1, write_index := 10, session_rotation_count := 3
        session_active_time_seconds := 4, session_start_time_unix := 5
        session_end_time_unix := 6, lifetime_rotation_count := 7
        lifetime_time_seconds := 8, reported := 0 })
  else if sec.val = 1 then
    Sector.v2 (encodeRecord
      { session_id := 1, write_index := 20, session_rotation_count := 9
        session_active_time_seconds := 10, session_start_time_unix := 11
        session_end_time_unix := 12, lifetime_rotation_count := 13
        lifetime_time_seconds := 14, reported := 0 })
  else Sector.blank

theorem dedup_latest_write_witness :
    ({ session_id := 1, write_index := 10, session_rotation_count := 3
       session_active_time_seconds := 4, session_start_time_unix := 5
       session_end_time_unix := 6, lifetime_rotation_count := 7
       lifetime_time_seconds := 8, reported := 0 } : SessionData) ∈
        sectorData dedupStore ∧
    ({ session_id := 1, write_index := 20, session_rotation_count := 9
       session_active_time_seconds := 10, session_start_time_unix := 11
       session_end_time_unix := 12, lifetime_rotation_count := 13
       lifetime_time_seconds := 14, reported := 0 } : SessionData) ∈
        sectorData dedupStore ∧
    (∃ m, flash_find_session dedupStore 1 = some m ∧
      m ∈ sectorData dedupStore ∧ m.session_id = 1 ∧
      (∀ e ∈ sectorData dedupStore, e.session_id = 1 →
        e.write_index ≤ m.write_index) ∧
      (∀ e ∈ sectorData dedupStore, e.session_id = 1 → e ≠ m →
        e.write_index < m.write_index)) :=
  ⟨by decide, by decide,
    (dedup_latest_write dedupStore 1
      { session_id := 1, write_index := 10, session_rotation_count := 3
        session_active_time_seconds := 4, session_start_time_unix := 5
        session_end_time_unix := 6, lifetime_rotation_count := 7
        lifetime_time_seconds := 8, reported := 0 }
      { session_id := 1, write_index := 20, session_rotation_count := 9
        session_active_time_seconds := 10, session_start_time_unix := 11
        session_end_time_unix := 12, lifetime_rotation_count := 13
        lifetime_time_seconds := 14, reported := 0 }
      (by decide) (by decide) (by decide)
      (by decide) (by decide) (by decide)).1⟩

/-- C4: session data with zero rotations is never persisted (flash_write
skips all flash operations, leaves the store unchanged, and reports success),
and a stored record with zero rotations is rejected by flash_read even when
its magic and checksum are valid, so zero-rotation sessions are never
returned by a read, a scan, or a session lookup. -/
theorem zero_rotation_never_persists (d : SessionData) (r1 : RecV1)
    (r2 : RecV2) (hd : d.session_rotation_count = 0)
    (h1 : r1.session_rotation_count = 0)
    (h2 : r2.session_rotation_count = 0) :
    (∀ landed store, flash_write landed store d = (true, store, 0)) ∧
    (flash_read (Sector.v1 r1)).1 = none ∧
    (flash_read (Sector.v2 r2)).1 = none ∧
    (∀ store max_sessions,
      ∀ e ∈ flash_scan_all_sessions store max_sessions,
        e.session_rotation_count ≠ 0) ∧
    (∀ store sid e, flash_find_session store sid = some e →
      e.session_rotation_count ≠ 0) := by
  refine ⟨?_, ?_, ?_, ?_, ?_⟩
  · intro landed store
    unfold flash_write
    rw [if_pos hd]
  · simp only [flash_read]
    split_ifs with hck
    · rfl
    · rfl
  · simp only [flash_read]
    split_ifs with hck
    · rfl
    · rfl
  · intro store max_sessions e he
    have hmem : e ∈ sectorData store := by
      rcases scanFold_mem max_sessions (sectorData store) [] e he with h | h
      · exact absurd h (List.not_mem_nil e)
      · exact h
    obtain ⟨sec, hsec⟩ := (sectorData_mem store e).mp hmem
    exact readFields_some_rot (store sec) e hsec
  · intro store sid e he
    obtain ⟨spec1, _, _⟩ := findFold_spec sid (sectorData store) none
    rcases spec1 e he with h | h
    · exact absurd h (by simp)
    · obtain ⟨sec, hsec⟩ := (sectorData_mem store e).mp h.1
      exact readFields_some_rot (store sec) e hsec

theorem zero_rotation_never_persists_witness :
    ({ session_id := 1, write_index := 2, session_rotation_count := 0
       session_active_time_seconds := 4, session_start_time_unix := 5
       session_end_time_unix := 6, lifetime_rotation_count := 7
       lifetime_time_seconds := 8, reported := 0 } : SessionData).session_rotation_count = 0 ∧
    (∀ landed store,
      flash_write landed store
        { session_id := 1, write_index := 2, session_rotation_count := 0
          session_active_time_seconds := 4, session_start_time_unix := 5
          session_end_time_unix := 6, lifetime_rotation_count := 7
          lifetime_time_seconds := 8, reported := 0 } = (true, store, 0)) ∧
    (flash_read (Sector.v1
      { session_id := 7, session_rotation_count := 0
        session_active_time_seconds := 11, session_start_time_unix := 0
        session_end_time_unix := 0, lifetime_rotation_count := 5
        lifetime_time_seconds := 11, reported := 0
        checksum := 0x4F444F50 })).1 = none ∧
    (flash_read (Sector.v2
      { session_id := 7, write_index := 9, session_rotation_count := 0
        session_active_time_seconds := 11, session_start_time_unix := 0
        session_end_time_unix := 0, lifetime_rotation_count := 5
        lifetime_time_seconds := 11, reported := 0
        checksum := 0 })).1 = none := by
  have h := zero_rotation_never_persists
    { session_id := 1, write_index := 2, session_rotation_count := 0
      session_active_time_seconds := 4, session_start_time_unix := 5
      session_end_time_unix := 6, lifetime_rotation_count := 7
      lifetime_time_seconds := 8, reported := 0 }
    { session_id := 7, session_rotation_count := 0
      session_active_time_seconds := 11, session_start_time_unix := 0
      session_end_time_unix := 0, lifetime_rotation_count := 5
      lifetime_time_seconds := 11, reported := 0
      checksum := 0x4F444F50 }
    { session_id := 7, write_index := 9, session_rotation_count := 0
      session_active_time_seconds := 11, session_start_time_unix := 0
      session_end_time_unix := 0, lifetime_rotation_count := 5
      lifetime_time_seconds := 11, reported := 0
      checksum := 0 }
    (by decide) (by decide) (by decide)
  exact ⟨by decide, h.1, h.2.1, h.2.2.1⟩

end Flash

namespace Odometer

lemma merge_prev (s : EngineState) :
    (merge_with_previous_session s).prev = s.prev := rfl

lemma merge_flash (s : EngineState) :
    (merge_with_previous_session s).flash = s.flash := rfl

lemma merge_save_state (s : EngineState) :
    (merge_with_previous_session s).save_state = s.save_state := rfl

lemma merge_current (s : EngineState) :
    (merge_with_previous_session s).session.current_session_id =
      s.session.current_session_id := rfl

lemma merge_decided (s : EngineState) :
    (merge_with_previous_session s).session.session_id_decided =
      s.session.session_id_decided := rfl

lemma merge_time_acquired (s : EngineState) :
    (merge_with_previous_session s).session.time_acquired =
      s.session.time_acquired := rfl

lemma merge_session_rotations (s : EngineState) :
    (merge_with_previous_session s).counts.session_rotations =
      s.counts.session_rotations + s.prev.rotation_count := rfl

lemma merge_session_active (s : EngineState) :
    (merge_with_previous_session s).counts.session_active_seconds =
      s.counts.session_active_seconds + s.prev.active_time_seconds := rfl

lemma applyDecision_of_decided (s : EngineState)
    (h : s.session.session_id_decided = true) : applyDecision s = s := by
  unfold applyDecision
  rw [if_pos h]

lemma applyDecision_prev (s : EngineState) :
    (applyDecision s).prev = s.prev := by
  unfold applyDecision
  split_ifs with h hm
  · rfl
  · rfl
  · rfl

lemma applyDecision_flash (s : EngineState) :
    (applyDecision s).flash = s.flash := by
  unfold applyDecision
  split_ifs with h hm
  · rfl
  · rfl
  · rfl

lemma applyDecision_decided_true (s : EngineState)
    (h : s.session.session_id_decided = false) :
    (applyDecision s).session.session_id_decided = true := by
  unfold applyDecision
  rw [if_neg (by simp [h])]

lemma applyDecision_decided (s : EngineState) :
    (applyDecision s).session.session_id_decided = true ↔
      (s.session.session_id_decided = true ∨
        s.session.session_id_decided = false) := by
  cases h : s.session.session_id_decided
  · simp [applyDecision_decided_true s h]
  · simp [applyDecision_of_decided s h, h]

lemma applyDecision_current_undecided (s : EngineState)
    (h : s.session.session_id_decided = false) :
    (applyDecision s).session.current_session_id = decideTarget s := by
  unfold applyDecision
  rw [if_neg (by simp [h])]

lemma applyDecision_counts_merge (s : EngineState)
    (h : s.session.session_id_decided = false) (hm : decideMerge s = true) :
    (applyDecision s).counts.session_rotations =
      s.counts.session_rotations + s.prev.rotation_count ∧
    (applyDecision s).counts.session_active_seconds =
      s.counts.session_active_seconds + s.prev.active_time_seconds := by
  unfold applyDecision
  rw [if_neg (by simp [h])]
  exact ⟨by rw [hm]; rfl, by rw [hm]; rfl⟩

lemma applyDecision_counts_nomerge (s : EngineState)
    (h : s.session.session_id_decided = false) (hm : decideMerge s = false) :
    (applyDecision s).counts = s.counts := by
  unfold applyDecision
  rw [if_neg (by simp [h])]
  rw [hm]
  rfl

lemma estimateStart_prev (now_ms endT : Nat) (s : EngineState) :
    (estimateStart now_ms endT s).prev = s.prev := by
  unfold estimateStart
  split_ifs <;> rfl

lemma estimateStart_flash (now_ms endT : Nat) (s : EngineState) :
    (estimateStart now_ms endT s).flash = s.flash := by
  unfold estimateStart
  split_ifs <;> rfl

lemma estimateStart_counts (now_ms endT : Nat) (s : EngineState) :
    (estimateStart now_ms endT s).counts = s.counts := by
  unfold estimateStart
  split_ifs <;> rfl

lemma estimateStart_current (now_ms endT : Nat) (s : EngineState) :
    (estimateStart now_ms endT s).session.current_session_id =
      s.session.current_session_id := by
  unfold estimateStart
  split_ifs <;> rfl

lemma estimateStart_decided (now_ms endT : Nat) (s : EngineState) :
    (estimateStart now_ms endT s).session.session_id_decided =
      s.session.session_id_decided := by
  unfold estimateStart
  split_ifs <;> rfl

lemma save_prev (now_ms : Nat) (s : EngineState) :
    (odometer_save_count now_ms s).prev = s.prev := by
  simp only [odometer_save_count]
  rw [estimateStart_prev, applyDecision_prev]

lemma save_counts (now_ms : Nat) (s : EngineState) :
    (odometer_save_count now_ms s).counts = (applyDecision s).counts := by
  simp only [odometer_save_count]
  rw [estimateStart_counts]

lemma save_current (now_ms : Nat) (s : EngineState) :
    (odometer_save_count now_ms s).session.current_session_id =
      (applyDecision s).session.current_session_id := by
  simp only [odometer_save_count]
  rw [estimateStart_current]

lemma save_decided (now_ms : Nat) (s : EngineState) :
    (odometer_save_count now_ms s).session.session_id_decided = true := by
  simp only [odometer_save_count]
  rw [estimateStart_decided]
  cases h : s.session.session_id_decided
  · exact applyDecision_decided_true s h
  · rw [applyDecision_of_decided s h]
    exact h

lemma save_flash_cases (now_ms : Nat) (s : EngineState)
    (sec : Fin FLASH_SECTOR_COUNT) (r : ORec)
    (h : (odometer_save_count now_ms s).flash sec = some r) :
    s.flash sec = some r ∨
      (r.session_id = (applyDecision s).session.current_session_id ∧
        r.reported = false) := by
  simp only [odometer_save_count] at h
  by_cases hsec : sec =
      sectorOfId ((estimateStart now_ms
        (odometer_get_current_unix_time now_ms s)
        (applyDecision s)).session.current_session_id)
  · rw [hsec, Function.update_same] at h
    right
    have hr := Option.some_injective _ h
    constructor
    · rw [← hr]
      show (estimateStart now_ms (odometer_get_current_unix_time now_ms s)
          (applyDecision s)).session.current_session_id =
        (applyDecision s).session.current_session_id
      rw [estimateStart_current]
    · rw [← hr]
      rfl
  · rw [Function.update_noteq hsec] at h
    left
    rw [estimateStart_flash, applyDecision_flash] at h
    exact h

lemma setTime_prev (ts now_ms : Nat) (s : EngineState) :
    (odometer_set_time_reference ts now_ms s).prev = s.prev := by
  simp only [odometer_set_time_reference]
  split_ifs <;> rfl

lemma setTime_flash (ts now_ms : Nat) (s : EngineState) :
    (odometer_set_time_reference ts now_ms s).flash = s.flash := by
  simp only [odometer_set_time_reference]
  split_ifs <;> rfl

lemma setTime_session_of_reported (ts now_ms : Nat) (s : EngineState)
    (hrep : s.prev.reported = true) :
    (odometer_set_time_reference ts now_ms s).session.session_id_decided =
      s.session.session_id_decided ∧
    (odometer_set_time_reference ts now_ms s).session.current_session_id =
      s.session.current_session_id := by
  simp only [odometer_set_time_reference]
  by_cases h1 : ts = 0
  · rw [if_pos h1]
    exact ⟨rfl, rfl⟩
  · rw [if_neg h1]
    have hg : ¬(s.session.session_id_decided = false ∧ s.prev.valid = true ∧
        s.prev.reported = false) := by
      intro hcon
      rw [hrep] at hcon
      exact absurd hcon.2.2 (by simp)
    rw [if_neg hg]
    exact ⟨rfl, rfl⟩

lemma setTime_session_of_decided (ts now_ms : Nat) (s : EngineState)
    (hdec : s.session.session_id_decided = true) :
    (odometer_set_time_reference ts now_ms s).session.session_id_decided =
      true ∧
    (odometer_set_time_reference ts now_ms s).session.current_session_id =
      s.session.current_session_id := by
  simp only [odometer_set_time_reference]
  by_cases h1 : ts = 0
  · rw [if_pos h1]
    exact ⟨hdec, rfl⟩
  · rw [if_neg h1]
    have hg : ¬(s.session.session_id_decided = false ∧ s.prev.valid = true ∧
        s.prev.reported = false) := by
      intro hcon
      rw [hdec] at hcon
      exact absurd hcon.1 (by simp)
    rw [if_neg hg]
    exact ⟨hdec, rfl⟩

lemma currentTime_ne_zero (now_ms : Nat) (s : EngineState)
    (hacq : s.session.time_acquired = true)
    (href : s.session.time_reference_unix ≠ 0) :
    odometer_get_current_unix_time now_ms s ≠ 0 := by
  unfold odometer_get_current_unix_time
  rw [if_neg (by simp [hacq, href])]
  omega

lemma decideTarget_eq_claim (now_ms : Nat) (s : EngineState)
    (h1 : s.session.time_acquired = false →
      s.session.session_start_time_unix = 0)
    (h2 : s.session.time_acquired = true →
      s.session.time_reference_unix ≠ 0) :
    decideTarget s =
      (if s.prev.valid = false then 1
       else if s.prev.reported = true then s.prev.session_id + 1
       else if odometer_get_current_unix_time now_ms s = 0 then
         s.prev.session_id
       else if s.prev.end_time_unix = 0 then s.prev.session_id
       else if (s.session.session_start_time_unix : Int) -
           (s.prev.end_time_unix : Int) ≤ 900 then s.prev.session_id
       else s.prev.session_id + 1) := by
  unfold decideTarget
  by_cases hv : s.prev.valid = false
  · rw [if_pos hv, if_pos hv]
  · rw [if_neg hv, if_neg hv]
    by_cases hr : s.prev.reported = true
    · rw [if_pos hr, if_pos hr]
    · rw [if_neg hr, if_neg hr]
      by_cases hs0 : s.session.session_start_time_unix = 0
      · rw [if_pos hs0]
        by_cases hct : odometer_get_current_unix_time now_ms s = 0
        · rw [if_pos hct]
        · rw [if_neg hct]
          by_cases hend : s.prev.end_time_unix = 0
          · rw [if_pos hend]
          · rw [if_neg hend, if_pos (by omega :
              (s.session.session_start_time_unix : Int) -
                (s.prev.end_time_unix : Int) ≤ 900)]
      · rw [if_neg hs0]
        have hacq : s.session.time_acquired = true := by
          cases hta : s.session.time_acquired
          · exact absurd (h1 hta) hs0
          · rfl
        have hct := currentTime_ne_zero now_ms s hacq (h2 hacq)
        rw [if_neg hct]
        by_cases hend : s.prev.end_time_unix = 0
        · rw [if_pos hend, if_pos hend]
        · rw [if_neg hend, if_neg hend]
          unfold sessionGapSeconds
          by_cases hgt : s.session.session_start_time_unix >
              s.prev.end_time_unix
          · rw [if_pos hgt]
            by_cases hle : s.session.session_start_time_unix -
                s.prev.end_time_unix ≤ 900
            · rw [if_pos hle, if_pos (by omega)]
            · rw [if_neg hle, if_neg (by omega)]
          · rw [if_neg hgt, if_pos (by omega : (900 : Nat) ≤ 900),
              if_pos (by omega)]

lemma decideMerge_iff_claim (now_ms : Nat) (s : EngineState)
    (h1 : s.session.time_acquired = false →
      s.session.session_start_time_unix = 0)
    (h2 : s.session.time_acquired = true →
      s.session.time_reference_unix ≠ 0) :
    decideMerge s = true ↔
      (s.prev.valid = true ∧ s.prev.reported = false ∧
        (odometer_get_current_unix_time now_ms s = 0 ∨
          s.prev.end_time_unix = 0 ∨
          (s.session.session_start_time_unix : Int) -
            (s.prev.end_time_unix : Int) ≤ 900)) := by
  unfold decideMerge
  by_cases hv : s.prev.valid = false
  · rw [if_pos hv]
    simp [hv]
  · rw [if_neg hv]
    have hv' : s.prev.valid = true := by
      cases hvb : s.prev.valid
      · exact absurd hvb hv
      · rfl
    by_cases hr : s.prev.reported = true
    · rw [if_pos hr]
      simp [hr]
    · rw [if_neg hr]
      have hr' : s.prev.reported = false := by
        cases hrb : s.prev.reported
        · rfl
        · exact absurd hrb hr
      by_cases hs0 : s.session.session_start_time_unix = 0
      · rw [if_pos hs0]
        simp only [hv', hr', true_and]
        constructor
        · intro _
          by_cases hend : s.prev.end_time_unix = 0
          · exact Or.inr (Or.inl hend)
          · exact Or.inr (Or.inr (by omega))
        · intro _
          trivial
      · rw [if_neg hs0]
        have hacq : s.session.time_acquired = true := by
          cases hta : s.session.time_acquired
          · exact absurd (h1 hta) hs0
          · rfl
        have hct := currentTime_ne_zero now_ms s hacq (h2 hacq)
        by_cases hend : s.prev.end_time_unix = 0
        · rw [if_pos hend]
          simp [hv', hr', hend]
        · rw [if_neg hend]
          unfold sessionGapSeconds
          by_cases hgt : s.session.session_start_time_unix >
              s.prev.end_time_unix
          · rw [if_pos hgt]
            constructor
            · intro hdec
              simp only [decide_eq_true_eq] at hdec
              exact ⟨hv', hr', Or.inr (Or.inr (by omega))⟩
            · rintro ⟨-, -, hc | hc | hc⟩
              · exact absurd hc hct
              · exact absurd hc hend
              · simp only [decide_eq_true_eq]
                omega
          · rw [if_neg hgt]
            constructor
            · intro _
              exact ⟨hv', hr', Or.inr (Or.inr (by omega))⟩
            · intro _
              simp

/-- C6 counterexample: a single rotation at t = 0 followed by silence makes
the first poll at t = 3001 (past ACTIVE_TIMEOUT_MS = 3000) take the
Active-to-Idle transition, but the transition folds
(last_rotation_time_ms - active_start_time_ms)/1000 = 0 seconds into the
lifetime and session totals, not ACTIVE_TIMEOUT/1000 = 3 seconds
(src/odometer.c:473 measures the closed period up to the last rotation, so
the timeout tail is never folded). -/
theorem active_time_fold_counterexample :
    activeTimeoutTick 3001 (rotationEvent 0
      { lifetime_rotations := 0, lifetime_active_seconds := 0
        session_rotations := 0, session_active_seconds := 0
        boot_rotations := 0, boot_active_seconds := 0
        last_rotation_time_ms := 0, active_start_time_ms := 0
        is_active := false }) =
      { lifetime_rotations := 1, lifetime_active_seconds := 0
        session_rotations := 1, session_active_seconds := 0
        boot_rotations := 1, boot_active_seconds := 0
        last_rotation_time_ms := 0, active_start_time_ms := 0
        is_active := false } ∧
    (0 : Nat) ≠ ACTIVE_TIMEOUT_MS / 1000 := by decide

/-- C6 amended: with a rotation last seen at last_rotation_time_ms, the first
poll at now with now - last_rotation_time_ms at least ACTIVE_TIMEOUT_MS
(3000 ms) takes the Active-to-Idle transition and folds exactly
(last_rotation_time_ms - active_start_time_ms)/1000 seconds — 0 for a single
rotation at t = 0, the trailing timeout window is never counted — into both
the lifetime and session active-second totals; any read of session active
seconds taken while still Active returns the stored total plus the elapsed
seconds (now - active_start_time_ms)/1000 of the open period, without that
elapsed time having been folded into the stored total, and polls before the
timeout leave the state unchanged. -/
theorem active_time_accounting (c : Counts) (now_ms : Nat)
    (hact : c.is_active = true)
    (h1 : c.active_start_time_ms ≤ c.last_rotation_time_ms)
    (h2 : c.last_rotation_time_ms ≤ now_ms)
    (htimeout : ACTIVE_TIMEOUT_MS ≤ now_ms - c.last_rotation_time_ms) :
    (activeTimeoutTick now_ms c).is_active = false ∧
    (activeTimeoutTick now_ms c).lifetime_active_seconds =
      c.lifetime_active_seconds +
        (c.last_rotation_time_ms - c.active_start_time_ms) / 1000 ∧
    (activeTimeoutTick now_ms c).session_active_seconds =
      c.session_active_seconds +
        (c.last_rotation_time_ms - c.active_start_time_ms) / 1000 ∧
    (∀ t : Nat, odometer_get_session_active_time_seconds t c =
      c.session_active_seconds + (t - c.active_start_time_ms) / 1000) ∧
    (∀ t : Nat, t - c.last_rotation_time_ms < ACTIVE_TIMEOUT_MS →
      activeTimeoutTick t c = c) := by
  have hcond : c.is_active = true ∧
      ACTIVE_TIMEOUT_MS ≤ now_ms - c.last_rotation_time_ms :=
    ⟨hact, htimeout⟩
  refine ⟨?_, ?_, ?_, ?_, ?_⟩
  · unfold activeTimeoutTick
    rw [if_pos hcond]
  · unfold activeTimeoutTick
    rw [if_pos hcond]
  · unfold activeTimeoutTick
    rw [if_pos hcond]
  · intro t
    unfold odometer_get_session_active_time_seconds
    rw [if_pos hact]
  · intro t ht
    unfold activeTimeoutTick
    rw [if_neg (fun hc => absurd hc.2 (by omega))]

theorem active_time_accounting_witness :
    ((rotationEvent 0
      { lifetime_rotations := 0, lifetime_active_seconds := 0
        session_rotations := 0, session_active_seconds := 0
        boot_rotations := 0, boot_active_seconds := 0
        last_rotation_time_ms := 0, active_start_time_ms := 0
        is_active := false }).is_active = true) ∧
    ((activeTimeoutTick 3001 (rotationEvent 0
      { lifetime_rotations := 0, lifetime_active_seconds := 0
        session_rotations := 0, session_active_seconds := 0
        boot_rotations := 0, boot_active_seconds := 0
        last_rotation_time_ms := 0, active_start_time_ms := 0
        is_active := false })).is_active = false ∧
    (activeTimeoutTick 3001 (rotationEvent 0
      { lifetime_rotations := 0, lifetime_active_seconds := 0
        session_rotations := 0, session_active_seconds := 0
        boot_rotations := 0, boot_active_seconds := 0
        last_rotation_time_ms := 0, active_start_time_ms := 0
        is_active := false })).lifetime_active_seconds =
      (rotationEvent 0
      { lifetime_rotations := 0, lifetime_active_seconds := 0
        session_rotations := 0, session_active_seconds := 0
        boot_rotations := 0, boot_active_seconds := 0
        last_rotation_time_ms := 0, active_start_time_ms := 0
        is_active := false }).lifetime_active_seconds +
        ((rotationEvent 0
      { lifetime_rotations := 0, lifetime_active_seconds := 0
        session_rotations := 0, session_active_seconds := 0
        boot_rotations := 0, boot_active_seconds := 0
        last_rotation_time_ms := 0, active_start_time_ms := 0
        is_active := false }).last_rotation_time_ms -
          (rotationEvent 0
      { lifetime_rotations := 0, lifetime_active_seconds := 0
        session_rotations := 0, session_active_seconds := 0
        boot_rotations := 0, boot_active_seconds := 0
        last_rotation_time_ms := 0, active_start_time_ms := 0
        is_active := false }).active_start_time_ms) / 1000 ∧
    (∀ t : Nat, odometer_get_session_active_time_seconds t (rotationEvent 0
      { lifetime_rotations := 0, lifetime_active_seconds := 0
        session_rotations := 0, session_active_seconds := 0
        boot_rotations := 0, boot_active_seconds := 0
        last_rotation_time_ms := 0, active_start_time_ms := 0
        is_active := false }) =
      (rotationEvent 0
      { lifetime_rotations := 0, lifetime_active_seconds := 0
        session_rotations := 0, session_active_seconds := 0
        boot_rotations := 0, boot_active_seconds := 0
        last_rotation_time_ms := 0, active_start_time_ms := 0
        is_active := false }).session_active_seconds +
        (t - (rotationEvent 0
      { lifetime_rotations := 0, lifetime_active_seconds := 0
        session_rotations := 0, session_active_seconds := 0
        boot_rotations := 0, boot_active_seconds := 0
        last_rotation_time_ms := 0, active_start_time_ms := 0
        is_active := false }).active_start_time_ms) / 1000)) := by
  have h := active_time_accounting (rotationEvent 0
      { lifetime_rotations := 0, lifetime_active_seconds := 0
        session_rotations := 0, session_active_seconds := 0
        boot_rotations := 0, boot_active_seconds := 0
        last_rotation_time_ms := 0, active_start_time_ms := 0
        is_active := false }) 3001
    (by decide) (by decide) (by decide) (by decide)
  exact ⟨by decide, h.1, h.2.1, h.2.2.2.1⟩

lemma markReported_not_current_state (sid now_ms : Nat) (s : EngineState)
    (h : ¬(s.session.session_id_decided = true ∧
      sid = s.session.current_session_id)) :
    (odometer_mark_session_reported sid now_ms s).1 =
      { s with flash := markFirstMatching s.flash sid } := by
  simp only [odometer_mark_session_reported]
  rw [if_neg h]

lemma markReported_decided (sid now_ms : Nat) (s : EngineState)
    (h : s.session.session_id_decided = true) :
    ((odometer_mark_session_reported sid now_ms s).1).session.session_id_decided =
      true := by
  by_cases hc : s.session.session_id_decided = true ∧
      sid = s.session.current_session_id
  · simp only [odometer_mark_session_reported]
    rw [if_pos hc]
    exact save_decided _ _
  · rw [markReported_not_current_state sid now_ms s hc]
    exact h

lemma setTime_decides_merge (ts now_ms : Nat) (s : EngineState)
    (hdec : s.session.session_id_decided = false) (hts : ts ≠ 0) :
    (odometer_set_time_reference ts now_ms s).session.session_id_decided =
      true →
    (odometer_set_time_reference ts now_ms s).session.current_session_id =
      s.prev.session_id ∧
    s.prev.valid = true ∧ s.prev.reported = false ∧
    (s.prev.end_time_unix = 0 ∨
      ((ts - now_ms / 1000 : Nat) : Int) - (s.prev.end_time_unix : Int) ≤
        900) ∧
    (odometer_set_time_reference ts now_ms s).counts.session_rotations =
      s.counts.session_rotations + s.prev.rotation_count ∧
    (odometer_set_time_reference ts now_ms s).counts.session_active_seconds =
      s.counts.session_active_seconds + s.prev.active_time_seconds := by
  simp only [odometer_set_time_reference]
  rw [if_neg hts]
  by_cases hg : s.session.session_id_decided = false ∧ s.prev.valid = true ∧
      s.prev.reported = false
  · rw [if_pos hg]
    by_cases hend : s.prev.end_time_unix = 0
    · rw [if_pos hend, if_pos (show (true = true) from rfl)]
      intro _
      exact ⟨rfl, hg.2.1, hg.2.2, Or.inl hend, rfl, rfl⟩
    · rw [if_neg hend]
      by_cases hge : ts - now_ms / 1000 ≥ s.prev.end_time_unix
      · rw [if_pos hge]
        by_cases hle : ts - now_ms / 1000 - s.prev.end_time_unix ≤ 900
        · rw [if_pos (show decide
              (ts - now_ms / 1000 - s.prev.end_time_unix ≤ 900) = true by
                simp [hle])]
          intro _
          exact ⟨rfl, hg.2.1, hg.2.2, Or.inr (by omega), rfl, rfl⟩
        · rw [if_neg (show ¬decide
              (ts - now_ms / 1000 - s.prev.end_time_unix ≤ 900) = true by
                simp [hle])]
          intro hdec'
          simp [hdec] at hdec'
      · rw [if_neg hge, if_neg (show ¬(false = true) by simp)]
        intro hdec'
        simp [hdec] at hdec'
  · rw [if_neg hg]
    intro hdec'
    simp [hdec] at hdec'

/-- C1: the session-identity decision is made exactly once per boot, latched
by session_id_decided (conjunct i: once decided, saves and time-reference
updates keep both the id and the latch, and mark-reported keeps the latch),
and follows the claimed precedence: at the first save (conjunct ii) the new
id is 1 with no valid previous record, previous id + 1 when the previous
session is reported, the previous id (a merge) when the current wall-clock
time is unknown or the previous end time is unknown or the gap
current start - previous end is at most 900 seconds (a gap of 900 merges,
901 starts previous id + 1), with every merge adding the previous session's
rotation count and active seconds into the live session counters; and when
wall-clock time becoming available makes the decision (conjunct iii), that
decision is a merge into the previous unreported session under the same
rules 4-5, again adding the previous counters. -/
theorem session_decision_precedence (s : EngineState)
    (now_ms ts now2 sid2 : Nat)
    (h1 : s.session.time_acquired = false →
      s.session.session_start_time_unix = 0)
    (h2 : s.session.time_acquired = true →
      s.session.time_reference_unix ≠ 0) :
    (s.session.session_id_decided = true →
      (odometer_save_count now_ms s).session.current_session_id =
        s.session.current_session_id ∧
      (odometer_save_count now_ms s).session.session_id_decided = true ∧
      (odometer_set_time_reference ts now2 s).session.current_session_id =
        s.session.current_session_id ∧
      (odometer_set_time_reference ts now2 s).session.session_id_decided =
        true ∧
      ((odometer_mark_session_reported sid2 now2 s).1).session.session_id_decided =
        true) ∧
    (s.session.session_id_decided = false →
      (odometer_save_count now_ms s).session.session_id_decided = true ∧
      (odometer_save_count now_ms s).session.current_session_id =
        (if s.prev.valid = false then 1
         else if s.prev.reported = true then s.prev.session_id + 1
         else if odometer_get_current_unix_time now_ms s = 0 then
           s.prev.session_id
         else if s.prev.end_time_unix = 0 then s.prev.session_id
         else if (s.session.session_start_time_unix : Int) -
             (s.prev.end_time_unix : Int) ≤ 900 then s.prev.session_id
         else s.prev.session_id + 1) ∧
      ((s.prev.valid = true ∧ s.prev.reported = false ∧
          (odometer_get_current_unix_time now_ms s = 0 ∨
            s.prev.end_time_unix = 0 ∨
            (s.session.session_start_time_unix : Int) -
              (s.prev.end_time_unix : Int) ≤ 900)) →
        (odometer_save_count now_ms s).counts.session_rotations =
          s.counts.session_rotations + s.prev.rotation_count ∧
        (odometer_save_count now_ms s).counts.session_active_seconds =
          s.counts.session_active_seconds + s.prev.active_time_seconds) ∧
      (¬(s.prev.valid = true ∧ s.prev.reported = false ∧
          (odometer_get_current_unix_time now_ms s = 0 ∨
            s.prev.end_time_unix = 0 ∨
            (s.session.session_start_time_unix : Int) -
              (s.prev.end_time_unix : Int) ≤ 900)) →
        (odometer_save_count now_ms s).counts.session_rotations =
          s.counts.session_rotations ∧
        (odometer_save_count now_ms s).counts.session_active_seconds =
          s.counts.session_active_seconds)) ∧
    (s.session.session_id_decided = false → ts ≠ 0 →
      (odometer_set_time_reference ts now2 s).session.session_id_decided =
        true →
      (odometer_set_time_reference ts now2 s).session.current_session_id =
        s.prev.session_id ∧
      s.prev.valid = true ∧ s.prev.reported = false ∧
      (s.prev.end_time_unix = 0 ∨
        ((ts - now2 / 1000 : Nat) : Int) - (s.prev.end_time_unix : Int) ≤
          900) ∧
      (odometer_set_time_reference ts now2 s).counts.session_rotations =
        s.counts.session_rotations + s.prev.rotation_count ∧
      (odometer_set_time_reference ts now2 s).counts.session_active_seconds =
        s.counts.session_active_seconds + s.prev.active_time_seconds) := by
  refine ⟨?_, ?_, ?_⟩
  · intro hdec
    obtain ⟨hst1, hst2⟩ := setTime_session_of_decided ts now2 s hdec
    refine ⟨?_, save_decided now_ms s, hst2, hst1, markReported_decided
      sid2 now2 s hdec⟩
    rw [save_current, applyDecision_of_decided s hdec]
  · intro hdec
    refine ⟨save_decided now_ms s, ?_, ?_, ?_⟩
    · rw [save_current, applyDecision_current_undecided s hdec]
      exact decideTarget_eq_claim now_ms s h1 h2
    · intro hclaim
      have hm : decideMerge s = true :=
        (decideMerge_iff_claim now_ms s h1 h2).mpr hclaim
      have := applyDecision_counts_merge s hdec hm
      rw [save_counts]
      exact this
    · intro hclaim
      have hm : decideMerge s = false := by
        cases hb : decideMerge s
        · rfl
        · exact absurd ((decideMerge_iff_claim now_ms s h1 h2).mp hb) hclaim
      rw [save_counts, applyDecision_counts_nomerge s hdec hm]
      exact ⟨rfl, rfl⟩
  · intro hdec hts
    exact setTime_decides_merge ts now2 s hdec hts

/-- A concrete undecided boot state with time acquired, an unreported valid
previous session, and a 800-second gap (merge). -/
def c1State : EngineState :=
  { counts :=
      { lifetime_rotations := 100, lifetime_active_seconds := 50
        session_rotations := 10, session_active_seconds := 5
        boot_rotations := 10, boot_active_seconds := 5
        last_rotation_time_ms := 0, active_start_time_ms := 0
        is_active := false }
    session :=
      { current_session_id := 0, session_start_time_unix := 5000
        time_reference_unix := 6000, time_reference_boot_ms := 1000
        time_acquired := true, session_id_decided := false }
    prev :=
      { session_id := 4, rotation_count := 30, active_time_seconds := 20
        start_time_unix := 3000, end_time_unix := 4200, reported := false
        valid := true }
    save_state := { last_saved_count := 0, last_save_time_ms := 0 }
    flash := fun _ => none }

theorem session_decision_precedence_witness :
    (c1State.session.time_acquired = false →
      c1State.session.session_start_time_unix = 0) ∧
    (c1State.session.time_acquired = true →
      c1State.session.time_reference_unix ≠ 0) ∧
    (odometer_save_count 2000 c1State).session.session_id_decided = true ∧
    (odometer_save_count 2000 c1State).session.current_session_id = 4 ∧
    (odometer_save_count 2000 c1State).counts.session_rotations = 40 := by
  have h := session_decision_precedence c1State 2000 7000 1500 9
    (by decide) (by decide)
  obtain ⟨-, hii, -⟩ := h
  obtain ⟨ha, hb, hc, -⟩ := hii (by decide)
  refine ⟨by decide, by decide, ha, ?_, ?_⟩
  · rw [hb]
    decide
  · rw [(hc (by decide)).1]
    decide

/-- Every persisted record carrying session id S is flagged reported, the
boot-loaded previous-session snapshot for S is reported, and the live session
id exceeds S whenever the session decision has been made. -/
def ReportedInv (S : Nat) (s : EngineState) : Prop :=
  s.prev.valid = true ∧ s.prev.session_id = S ∧ s.prev.reported = true ∧
  (s.session.session_id_decided = true → S < s.session.current_session_id) ∧
  ∀ sec : Fin FLASH_SECTOR_COUNT, ∀ r : ORec,
    s.flash sec = some r → r.session_id = S → r.reported = true

lemma decideTarget_of_reported (s : EngineState) (hv : s.prev.valid = true)
    (hrep : s.prev.reported = true) :
    decideTarget s = s.prev.session_id + 1 := by
  unfold decideTarget
  rw [if_neg (by simp [hv]), if_pos hrep]

lemma ReportedInv_save (S now_ms : Nat) (s : EngineState)
    (h : ReportedInv S s) : ReportedInv S (odometer_save_count now_ms s) := by
  obtain ⟨hv, hid, hrep, hdec, hflash⟩ := h
  have htarget : S < (applyDecision s).session.current_session_id := by
    cases hd : s.session.session_id_decided
    · rw [applyDecision_current_undecided s hd,
        decideTarget_of_reported s hv hrep, hid]
      omega
    · rw [applyDecision_of_decided s hd]
      exact hdec hd
  refine ⟨?_, ?_, ?_, ?_, ?_⟩
  · rw [save_prev]; exact hv
  · rw [save_prev]; exact hid
  · rw [save_prev]; exact hrep
  · intro _
    rw [save_current]
    exact htarget
  · intro sec r hr hsid
    rcases save_flash_cases now_ms s sec r hr with hcase | hcase
    · exact hflash sec r hcase hsid
    · exfalso
      rw [hsid] at hcase
      have := hcase.1
      omega

lemma ReportedInv_setTime (S ts now_ms : Nat) (s : EngineState)
    (h : ReportedInv S s) :
    ReportedInv S (odometer_set_time_reference ts now_ms s) := by
  obtain ⟨hv, hid, hrep, hdec, hflash⟩ := h
  obtain ⟨hd', hc'⟩ := setTime_session_of_reported ts now_ms s hrep
  refine ⟨?_, ?_, ?_, ?_, ?_⟩
  · rw [setTime_prev]; exact hv
  · rw [setTime_prev]; exact hid
  · rw [setTime_prev]; exact hrep
  · intro hq
    rw [hc']
    exact hdec (by rw [← hd']; exact hq)
  · intro sec r hr hsid
    rw [setTime_flash] at hr
    exact hflash sec r hr hsid

lemma markFirstMatching_cases (flash : OStore) (session_id : Nat)
    (sec : Fin FLASH_SECTOR_COUNT) (r : ORec)
    (h : markFirstMatching flash session_id sec = some r) :
    flash sec = some r ∨
      ∃ r0, flash sec = some r0 ∧ r = { r0 with reported := true } := by
  cases hfind : firstMatchingSector flash session_id with
  | none =>
    unfold markFirstMatching at h
    rw [hfind] at h
    exact Or.inl h
  | some sec0 =>
    have h' : (match flash sec0 with
        | some r0 =>
            Function.update flash sec0 (some { r0 with reported := true })
        | none => flash) sec = some r := by
      unfold markFirstMatching at h
      rw [hfind] at h
      exact h
    cases hfl : flash sec0 with
    | none =>
      rw [hfl] at h'
      exact Or.inl h'
    | some r0 =>
      rw [hfl] at h'
      by_cases hsec : sec = sec0
      · subst hsec
        replace h' : Function.update flash sec
            (some { r0 with reported := true }) sec = some r := h'
        rw [Function.update_same] at h'
        exact Or.inr ⟨r0, hfl, (Option.some_injective _ h').symm⟩
      · replace h' : Function.update flash sec0
            (some { r0 with reported := true }) sec = some r := h'
        rw [Function.update_noteq hsec] at h'
        exact Or.inl h'

lemma ReportedInv_markReported (S sid now_ms : Nat) (s : EngineState)
    (h : ReportedInv S s) :
    ReportedInv S (odometer_mark_session_reported sid now_ms s).1 := by
  by_cases hc : s.session.session_id_decided = true ∧
      sid = s.session.current_session_id
  · obtain ⟨hv, hid, hrep, hdec, hflash⟩ := h
    have hScur : S < s.session.current_session_id := hdec hc.1
    have hsid2 := hc.2
    have hs1 : ReportedInv S (odometer_save_count now_ms s) :=
      ReportedInv_save S now_ms s ⟨hv, hid, hrep, hdec, hflash⟩
    obtain ⟨hv1, hid1, hrep1, hdec1, hflash1⟩ := hs1
    simp only [odometer_mark_session_reported]
    rw [if_pos hc]
    apply ReportedInv_save
    split_ifs
    all_goals refine ⟨hv1, hid1, hrep1, ?_, ?_⟩
    all_goals try
      intro _
      show S < sid + 1
      omega
    all_goals
      intro sec r hr hsid
      rcases markFirstMatching_cases (odometer_save_count now_ms s).flash sid
          sec r hr with hcase | ⟨r0, hr0, hreq⟩
      · exact hflash1 sec r hcase hsid
      · rw [hreq]
  · rw [markReported_not_current_state sid now_ms s hc]
    obtain ⟨hv, hid, hrep, hdec, hflash⟩ := h
    refine ⟨hv, hid, hrep, hdec, ?_⟩
    intro sec r hr hsid
    rcases markFirstMatching_cases s.flash sid sec r hr with
      hcase | ⟨r0, hr0, hreq⟩
    · exact hflash sec r hcase hsid
    · rw [hreq]

lemma ReportedInv_step (S : Nat) (s : EngineState) (op : Op)
    (h : ReportedInv S s) : ReportedInv S (stepOp s op) := by
  cases op with
  | save now_ms => exact ReportedInv_save S now_ms s h
  | markReported sid now_ms => exact ReportedInv_markReported S sid now_ms s h
  | setTime ts now_ms => exact ReportedInv_setTime S ts now_ms s h

lemma ReportedInv_run (S : Nat) (ops : List Op) :
    ∀ s : EngineState, ReportedInv S s → ReportedInv S (runOps s ops) := by
  induction ops with
  | nil => exact fun s h => h
  | cons op rest ih => exact fun s h => ih _ (ReportedInv_step S s op h)

/-- Flash contents for the stale-snapshot counterexample: one valid record,
session 5, not yet reported, with unknown end time. -/
def staleStore : OStore := fun sec =>
  if sec.val = 5 then
    some { session_id := 5, session_rotation_count := 100
           session_active_time_seconds := 50, session_start_time_unix := 0
           session_end_time_unix := 0, lifetime_rotation_count := 100
           lifetime_time_seconds := 50, reported := false }
  else none

/-- C5 counterexample: boot loads session 5 as the previous-session snapshot;
marking session 5 reported (the not-the-live-session path,
src/odometer.c:798-829) sets reported = 1 in flash but does not update the
in-memory snapshot, so the next save's merge decision still sees the snapshot
as unreported, merges into session id 5, and rewrites the record for session
id 5 with reported = 0: the reported flag of a persisted record reverts for
the same session id. -/
theorem reported_monotonicity_counterexample :
    (runOps (odometer_boot staleStore) [Op.markReported 5 1000]).flash
        ⟨5, by decide⟩ =
      some { session_id := 5, session_rotation_count := 100
             session_active_time_seconds := 50, session_start_time_unix := 0
             session_end_time_unix := 0, lifetime_rotation_count := 100
             lifetime_time_seconds := 50, reported := true } ∧
    (runOps (odometer_boot staleStore)
        [Op.markReported 5 1000, Op.save 70000]).flash ⟨5, by decide⟩ =
      some { session_id := 5, session_rotation_count := 100
             session_active_time_seconds := 50, session_start_time_unix := 0
             session_end_time_unix := 0, lifetime_rotation_count := 100
             lifetime_time_seconds := 50, reported := false } := by decide

/-- C5 amended: if the boot-loaded previous-session snapshot for session id S
is already flagged reported (in particular whenever S's record was reported
before this boot), and every persisted record for S is reported, then no
sequence of engine operations (saves, mark-reported calls, time-reference
updates; scans modify nothing) ever leaves a record for S with reported = 0:
the flag is only left behind by starting an entirely new session id.  The
flag can revert only through the stale-snapshot path shown by the
counterexample: marking the boot-loaded previous session reported after boot
does not update the in-memory snapshot, and a later merge rewrites that id
with reported = 0. -/
theorem reported_monotone_of_reported_at_boot (S : Nat) (s : EngineState)
    (ops : List Op)
    (hvalid : s.prev.valid = true) (hid : s.prev.session_id = S)
    (hrep : s.prev.reported = true)
    (hdec : s.session.session_id_decided = true →
      S < s.session.current_session_id)
    (hflash : ∀ sec : Fin FLASH_SECTOR_COUNT, ∀ r : ORec,
      s.flash sec = some r → r.session_id = S → r.reported = true) :
    ∀ sec : Fin FLASH_SECTOR_COUNT, ∀ r : ORec,
      (runOps s ops).flash sec = some r → r.session_id = S →
        r.reported = true :=
  (ReportedInv_run S ops s ⟨hvalid, hid, hrep, hdec, hflash⟩).2.2.2.2

/-- Flash contents whose only record (session 5) is already reported. -/
def reportedStore : OStore := fun sec =>
  if sec.val = 5 then
    some { session_id := 5, session_rotation_count := 100
           session_active_time_seconds := 50, session_start_time_unix := 0
           session_end_time_unix := 3000, lifetime_rotation_count := 100
           lifetime_time_seconds := 50, reported := true }
  else none

theorem reported_monotone_witness :
    (odometer_boot reportedStore).prev.valid = true ∧
    (odometer_boot reportedStore).prev.session_id = 5 ∧
    (odometer_boot reportedStore).prev.reported = true ∧
    ((odometer_boot reportedStore).session.session_id_decided = true →
      5 < (odometer_boot reportedStore).session.current_session_id) ∧
    (∀ sec : Fin FLASH_SECTOR_COUNT, ∀ r : ORec,
      (odometer_boot reportedStore).flash sec = some r → r.session_id = 5 →
        r.reported = true) ∧
    (∀ sec : Fin FLASH_SECTOR_COUNT, ∀ r : ORec,
      (runOps (odometer_boot reportedStore)
        [Op.save 70000, Op.markReported 6 80000,
          Op.setTime 1700000000 90000]).flash sec = some r →
        r.session_id = 5 → r.reported = true) := by
  have hflash : ∀ sec : Fin FLASH_SECTOR_COUNT, ∀ r : ORec,
      (odometer_boot reportedStore).flash sec = some r → r.session_id = 5 →
        r.reported = true := by
    intro sec r hr hsid
    by_cases h5 : sec.val = 5
    · have hrec : (odometer_boot reportedStore).flash sec =
          some { session_id := 5, session_rotation_count := 100
                 session_active_time_seconds := 50
                 session_start_time_unix := 0
                 session_end_time_unix := 3000
                 lifetime_rotation_count := 100
                 lifetime_time_seconds := 50, reported := true } := by
        show reportedStore sec = _
        rw [reportedStore, if_pos h5]
      rw [hrec] at hr
      rw [← Option.some_injective _ hr]
    · have hrec : (odometer_boot reportedStore).flash sec = none := by
        show reportedStore sec = _
        rw [reportedStore, if_neg h5]
      rw [hrec] at hr
      exact absurd hr (by simp)
  exact ⟨by decide, by decide, by decide, by decide, hflash,
    reported_monotone_of_reported_at_boot 5 (odometer_boot reportedStore) _
      (by decide) (by decide) (by decide) (by decide) hflash⟩

end Odometer
